import Mathlib

/-!
Verification development for `litellm/integrations/langfuse/langfuse.py`.

The Python module is shallowly embedded: Python values flowing through the
logger are modelled by the inductive type `Val` (with `Val.null` standing for
Python `None`), Python dicts by association lists (`Dict`) whose lookup,
insert-or-overwrite and pop operations mirror Python dict semantics, and
Python exceptions by the `Except String` monad.  Floating point numbers are
folded into `Val.int`: no branch of the source distinguishes between kinds of
numbers (a number is a primitive either way), so nothing is lost.
-/

/-- Model of a Python value.  `null` is Python `None`. -/
inductive Val where
  | str (s : String)
  | int (n : Int)
  | bool (b : Bool)
  | null
  | list (l : List Val)
  | dict (d : List (String × Val))

/-- `v is None` as a boolean test. -/
def Val.isNull : Val → Bool
  | .null => true
  | _ => false

/-- Python `v == "s"` for a string literal `s` (false on non-strings). -/
def Val.eqStr : Val → String → Bool
  | .str t, s => t == s
  | _, _ => false

/-- `d.get(k) == "s"`-style comparison on an optional value. -/
def Option.valEqStr : Option Val → String → Bool
  | some v, s => v.eqStr s
  | none, _ => false

/-- Association-list model of a Python `dict` with string keys. -/
abbrev Dict := List (String × Val)

/-- `d[k]` as an optional lookup: `none` means the key is absent
(which Python distinguishes from the key being present with value `None`). -/
def dget (d : Dict) (k : String) : Option Val :=
  (d.find? (fun p => p.1 == k)).map (fun p => p.2)

/-- `d.get(k, default)` / reading an entry with a Python default. -/
def dgetD (d : Dict) (k : String) (v : Val) : Val :=
  (dget d k).getD v

/-- `d[k] = v`: overwrite in place when the key exists, append otherwise
(mirrors Python's insertion-order semantics). -/
def dinsert (d : Dict) (k : String) (v : Val) : Dict :=
  if d.any (fun p => p.1 == k) then
    d.map (fun p => if p.1 == k then (k, v) else p)
  else
    d ++ [(k, v)]

/-- `d.pop(k, None)`: the removed value (if the key was present) and the
remaining dict. -/
def dpop (d : Dict) (k : String) : Option Val × Dict :=
  (dget d k, d.filter (fun p => p.1 != k))

/-- The keys of a dict, in order. -/
def dkeys (d : Dict) : List String := d.map (fun p => p.1)

/-- Python truthiness of a value. -/
def truthy : Val → Bool
  | .str s => s ≠ ""
  | .int n => n != 0
  | .bool b => b
  | .null => false
  | .list l => !l.isEmpty
  | .dict d => !d.isEmpty

/-- Python `str()` of a value, used only for building tag strings and default
names.  Scalars are rendered exactly as Python renders them; the rendering of
containers is abbreviated (no behaviour modelled here inspects the rendered
text of a container). -/
def pyStr : Val → String
  | .str s => s
  | .bool true => "True"
  | .bool false => "False"
  | .int n => toString n
  | .null => "None"
  | .list _ => "<list>"
  | .dict _ => "<dict>"

/-- `some v` for a present Python value, collapsing an absent entry to `None`
(the way `d.get(k)`-style reads behave). -/
def ov (o : Option Val) : Val := o.getD .null

/-- List-based `s.startswith(p)` (kernel-reducible, unlike `String.substrEq`). -/
def pyStartsWith (s p : String) : Bool :=
  p.toList.isPrefixOf s.toList

/-- Fuel-based helper for `pyReplaceAll` over character lists. -/
def replaceAllAux (pat : List Char) : Nat → List Char → List Char
  | 0, l => l
  | _ + 1, [] => []
  | fuel + 1, c :: cs =>
    if pat ≠ [] ∧ pat.isPrefixOf (c :: cs) then
      replaceAllAux pat fuel ((c :: cs).drop pat.length)
    else
      c :: replaceAllAux pat fuel cs

/-- Python `s.replace(pat, "")`-style removal of every occurrence of `pat`
(the source only ever replaces with the empty string). -/
def pyReplaceAll (s pat : String) : String :=
  String.mk (replaceAllAux pat.toList (s.toList.length + 1) s.toList)

/-- `key.replace("trace_", "")` as used by `_log_langfuse_v2` (removes every
occurrence, not only a leading prefix: Python `str.replace` with no count). -/
def stripTrace (s : String) : String := pyReplaceAll s "trace_"

/-- `key.replace("langfuse_", "", 1)` as used by `add_metadata_from_header`;
under the `startswith("langfuse_")` guard this is exactly dropping the first
9 characters. -/
def stripLangfuse (s : String) : String := String.mk (s.toList.drop 9)

/-- Python `s.lower()`. -/
def pyToLower (s : String) : String := String.mk (s.toList.map Char.toLower)

/-! ## Versions and capability flags -/

/-- A semantic version `major.minor.patch`, modelling
`packaging.version.Version` on the plain triples the source compares. -/
abbrev SemVer := Nat × Nat × Nat

/-- `Version(a) >= Version(b)`: lexicographic comparison. -/
def versionGE : SemVer → SemVer → Bool
  | (a, b, c), (d, e, f) =>
    if a ≠ d then decide (a > d)
    else if b ≠ e then decide (b > e)
    else decide (c ≥ f)

/-- `LangFuseLogger._is_langfuse_v2`: the installed SDK version is `>= 2.0.0`. -/
def is_langfuse_v2 (v : SemVer) : Bool := versionGE v (2, 0, 0)

/-- `LangFuseLogger._supports_tags`: SDK version `>= 2.6.3`. -/
def supports_tags (v : SemVer) : Bool := versionGE v (2, 6, 3)

/-- `LangFuseLogger._supports_prompt`: SDK version `>= 2.7.3`. -/
def supports_prompt (v : SemVer) : Bool := versionGE v (2, 7, 3)

/-- `LangFuseLogger._supports_costs`: SDK version `>= 2.7.3`. -/
def supports_costs (v : SemVer) : Bool := versionGE v (2, 7, 3)

/-- `LangFuseLogger._supports_completion_start_time`: SDK version `>= 2.7.3`. -/
def supports_completion_start_time (v : SemVer) : Bool := versionGE v (2, 7, 3)

/-! ## Response objects -/

/-- The `usage` sub-object of a response: the four attributes the source
reads through `getattr` chains (`prompt_tokens`/`input_tokens`,
`completion_tokens`/`output_tokens`).  `none` models a missing attribute. -/
structure UsageModel where
  prompt_tokens : Option Val
  completion_tokens : Option Val
  input_tokens : Option Val
  output_tokens : Option Val

/-- The tagged union of response shapes the logger branches over with
`isinstance`.  Typed responses carry their `id` attribute value, their
(optional) `usage` attribute, and the per-shape payload the extraction code
reads.  For a chat `ModelResponse` each element of `choiceMessages` is the
already-serialized `choices[i]["message"].json()` value (serialization by the
external pydantic method is treated as data). -/
inductive ResponseObj where
  | nullResp
  | dictResp (d : Dict)
  | embeddingResp (id : Val) (usage : Option UsageModel)
  | modelResp (id : Val) (choiceMessages : List Val) (usage : Option UsageModel)
      (system_fingerprint : Option Val)
  | binaryResp
  | textCompletionResp (id : Val) (choiceTexts : List Val) (usage : Option UsageModel)
  | imageResp (id : Val) (data : Option Val) (usage : Option UsageModel)
  | transcriptionResp (id : Val) (text : Option Val) (usage : Option UsageModel)
  | rerankResp (id : Val) (results : Val) (usage : Option UsageModel)
  | listResp (l : List Val)

/-- `hasattr(response_obj, "id")` together with `response_obj.get("id")`:
`some` for the typed pydantic responses (which always expose the attribute),
`none` for `None`, plain dicts, lists and binary audio content. -/
def resp_id : ResponseObj → Option Val
  | .embeddingResp i _ => some i
  | .modelResp i _ _ _ => some i
  | .textCompletionResp i _ _ => some i
  | .imageResp i _ _ => some i
  | .transcriptionResp i _ _ => some i
  | .rerankResp i _ _ => some i
  | _ => none

/-- `getattr(response_obj, "usage", None)` for the shapes that carry one. -/
def resp_usage : ResponseObj → Option UsageModel
  | .embeddingResp _ u => u
  | .modelResp _ _ u _ => u
  | .textCompletionResp _ _ u => u
  | .imageResp _ _ u => u
  | .transcriptionResp _ _ u => u
  | .rerankResp _ _ u => u
  | _ => none

/-- `getattr(response_obj, "system_fingerprint", None)`: only chat
`ModelResponse` objects carry the attribute. -/
def resp_system_fingerprint : ResponseObj → Option Val
  | .modelResp _ _ _ f => f
  | _ => none

/-! ## Input/output extraction (`EventNormalizer`) -/

/-- `LangFuseLogger._get_chat_content_for_langfuse`: the first choice's
serialized message, `None` when the choice list is empty. -/
def get_chat_content_for_langfuse (choiceMessages : List Val) : Option Val :=
  choiceMessages.head?

/-- `LangFuseLogger._get_text_completion_content_for_langfuse`: the first
choice's `text`, `None` when the choice list is empty. -/
def get_text_completion_content_for_langfuse (choiceTexts : List Val) : Option Val :=
  choiceTexts.head?

/-- `LangFuseLogger._get_langfuse_input_output_content`, translated branch by
branch from the `if`/`elif` chain of the source.  `callType` is
`kwargs.get("call_type")`, `rawInput` is `kwargs.get("input")` (used only by
the realtime branch), `prompt` is the prompt dict assembled by the caller.
The result is `(input, output)`; `none` is Python `None`. -/
def get_langfuse_input_output_content (callType : Option Val) (rawInput : Option Val)
    (resp : ResponseObj) (prompt : Dict) (level : String)
    (status_message : Option String) : Option Val × Option Val :=
  if level == "ERROR" && status_message.isSome then
    (some (.dict prompt), status_message.map .str)
  else if resp matches .nullResp then
    -- every remaining `elif` requires `response_obj is not None` except the
    -- two call-type branches, which require it as well
    (none, none)
  else if callType.valEqStr "embedding" || (resp matches .embeddingResp _ _) then
    (some (.dict prompt), none)
  else
    match resp with
    | .modelResp _ msgs _ _ => (some (.dict prompt), get_chat_content_for_langfuse msgs)
    | .binaryResp => (some (.dict prompt), some (.str "speech-output"))
    | .textCompletionResp _ texts _ =>
        (some (.dict prompt), get_text_completion_content_for_langfuse texts)
    | .imageResp _ data _ => (some (.dict prompt), some (ov data))
    | .transcriptionResp _ text _ => (some (.dict prompt), some (ov text))
    | .rerankResp _ results _ => (some (.dict prompt), some results)
    | .listResp l =>
        if callType.valEqStr "_arealtime" then (rawInput, some (.list l))
        else (none, none)
    | .dictResp d =>
        if callType.valEqStr "pass_through_endpoint" then
          (some (.dict prompt), some (dgetD d "response" (.str "")))
        else (none, none)
    | _ => (none, none)

/-- The §4.2 extraction table of the specification, written row by row in the
spec's order ("checked in order, first match wins").  The "embedding" variant
of the spec's `ResponseVariant` classification covers calls whose
`call_type` is `embedding` as well as `EmbeddingResponse` objects. -/
def spec_extraction_table (callType : Option Val) (rawInput : Option Val)
    (resp : ResponseObj) (prompt : Dict) (level : String)
    (status_message : Option String) : Option Val × Option Val :=
  if level == "ERROR" && status_message.isSome then
    (some (.dict prompt), status_message.map .str)                -- row 1
  else
    match resp with
    | .nullResp => (none, none)                                   -- row 11 (no response)
    | .embeddingResp _ _ => (some (.dict prompt), none)           -- row 2
    | .modelResp _ msgs _ _ =>
        if callType.valEqStr "embedding" then
          (some (.dict prompt), none)                             -- row 2
        else
          (some (.dict prompt), msgs.head?)                       -- row 3
    | .binaryResp =>
        if callType.valEqStr "embedding" then
          (some (.dict prompt), none)
        else
          (some (.dict prompt), some (.str "speech-output"))      -- row 4
    | .textCompletionResp _ texts _ =>
        if callType.valEqStr "embedding" then
          (some (.dict prompt), none)
        else
          (some (.dict prompt), texts.head?)                      -- row 5
    | .imageResp _ data _ =>
        if callType.valEqStr "embedding" then
          (some (.dict prompt), none)
        else
          (some (.dict prompt), some (ov data))                   -- row 6
    | .transcriptionResp _ text _ =>
        if callType.valEqStr "embedding" then
          (some (.dict prompt), none)
        else
          (some (.dict prompt), some (ov text))                   -- row 7
    | .rerankResp _ results _ =>
        if callType.valEqStr "embedding" then
          (some (.dict prompt), none)
        else
          (some (.dict prompt), some results)                     -- row 8
    | .listResp l =>
        if callType.valEqStr "embedding" then
          (some (.dict prompt), none)
        else if callType.valEqStr "_arealtime" then
          (rawInput, some (.list l))                              -- row 9
        else (none, none)                                         -- row 11
    | .dictResp d =>
        if callType.valEqStr "embedding" then
          (some (.dict prompt), none)
        else if callType.valEqStr "pass_through_endpoint" then
          (some (.dict prompt), some (dgetD d "response" (.str "")))  -- row 10
        else (none, none)                                         -- row 11

/-! ## Client creation cap (`ClientManager`) -/

/-- `LangFuseLogger.safe_init_langfuse_client`, reduced to its effect on the
process-wide counter `litellm.initialized_langfuse_clients`: fail when the
counter has reached the configured maximum, otherwise succeed and return the
incremented counter. -/
def safe_init_langfuse_client (initializedClients maxClients : Nat) : Except String Nat :=
  if initializedClients ≥ maxClients then
    .error "Max langfuse clients reached"
  else
    .ok (initializedClients + 1)

/-- The counter after `k` successive creation attempts starting from zero
(an attempt that fails leaves the counter unchanged). -/
def runCreations (maxClients : Nat) : Nat → Nat
  | 0 => 0
  | k + 1 =>
    let c := runCreations maxClients k
    match safe_init_langfuse_client c maxClients with
    | .ok c' => c'
    | .error _ => c

/-! ## Header merge -/

/-- One iteration of the header-merge loop (source lines 171-182): a header
key prefixed `langfuse_` is stripped and injected into the metadata,
overwriting; any other header is ignored. -/
def headerStep (m : Dict) (p : String × Val) : Dict :=
  if pyStartsWith p.1 "langfuse_" then dinsert m (stripLangfuse p.1) p.2 else m

/-- `LangFuseLogger.add_metadata_from_header`, translated from the source.
`litellm_params` may be `None` (modelled as `none`); the `headers` entry of
the proxy request collapses to an empty dict when absent, `None`, or not a
mapping (the source's `.get("headers", ...) or ...` chain). -/
def add_metadata_from_header (litellm_params : Option Dict) (metadata : Option Dict) :
    Option Dict :=
  match litellm_params with
  | none => metadata
  | some lp =>
    match dget lp "proxy_server_request" with
    | none => metadata
    | some .null => metadata
    | some psr =>
      let m0 : Dict := metadata.getD []
      let headers : Dict :=
        match psr with
        | .dict d =>
          match dget d "headers" with
          | some (.dict h) => h
          | _ => []
        | _ => []
      some (headers.foldl headerStep m0)

/-! ## External collaborators and call-record model -/

/-- The typed `standard_logging_object` payload: the fields of
`StandardLoggingPayload` the logger reads.  `request_tags` folds in the
source's `.get("request_tags", []) or []` collapse; `guardrail_information`
is `none` when absent or `None`. -/
structure SLOModel where
  metadata : Dict
  hidden_params : Val
  request_tags : List String
  guardrail_information : Option Dict

/-- External collaborators and process-wide configuration consulted by the
logger: the SDK version, `litellm.langfuse_default_tags`, the external
redaction helper `redact_user_api_key_info`, the external
`litellm.utils.get_logging_id` (the start time is folded into it),
the `PROXY_BASE_URL` environment variable, the preset cache key produced by
`litellm.cache` (`none` models `litellm.cache is None`), and the backend's
`get_prompt`. -/
structure LangfuseCtx where
  sdkVersion : SemVer
  langfuse_default_tags : Option (List String)
  redact : Dict → Dict
  get_logging_id : ResponseObj → Option String
  proxy_base_url : Option String
  cache_fallback_key : Option Val
  get_prompt : Val → Except String Val

/-- The backend client: `Langfuse.trace(**trace_params)`, `trace.span(...)`
(and the provider-specific `trace.span` calls), and
`trace.generation(**generation_params)`, which exposes the resolved trace id.
Every operation may fail. -/
structure Backend where
  createTrace : Dict → Except String Unit
  createSpan : Dict → Except String Unit
  createGeneration : Dict → Except String String

/-- `LangFuseLogger._get_langfuse_tags`. -/
def get_langfuse_tags (slo : Option SLOModel) : List String :=
  match slo with
  | none => []
  | some s => s.request_tags

/-- `LangFuseLogger.add_default_langfuse_tags`: the special `cache_hit` and
`cache_key` tags.  A non-mapping truthy `hidden_params` metadata entry (which
would raise in the source and be swallowed by the caller) is outside the
modelled input space. -/
def add_default_langfuse_tags (ctx : LangfuseCtx) (tags : List String)
    (kwargs : Dict) (metadata : Dict) : List String :=
  match ctx.langfuse_default_tags with
  | none => tags
  | some dft =>
    let tags :=
      if dft.contains "cache_hit" then
        tags ++ ["cache_hit:" ++ pyStr (dgetD kwargs "cache_hit" (.bool false))]
      else tags
    if dft.contains "cache_key" then
      let cacheKey0 : Val :=
        match dget metadata "hidden_params" with
        | some (.dict hp) => dgetD hp "cache_key" .null
        | _ => .null
      let cacheKey : Val :=
        if cacheKey0.isNull then
          match ctx.cache_fallback_key with
          | some p => p
          | none => .null
        else cacheKey0
      tags ++ ["cache_key:" ++ pyStr cacheKey]
    else tags

/-- `log_requester_metadata`: drop every key that also appears in the
`requester_metadata` sub-dict, then re-attach `requester_metadata` itself. -/
def log_requester_metadata (clean_metadata : Dict) : Dict :=
  let requester_metadata : Dict :=
    match dget clean_metadata "requester_metadata" with
    | some (.dict d) => d
    | _ => []  -- `.get(...) or ...` collapses a falsy entry to an empty dict
  dinsert (clean_metadata.filter (fun p => !(requester_metadata.any (fun q => q.1 == p.1))))
    "requester_metadata" (.dict requester_metadata)

/-- `log_provider_specific_information_as_span`: the vertex-AI grounding
metadata spans, returned as the list of span parameter dicts in emission
order. -/
def provider_spans (clean_metadata : Dict) : List Dict :=
  match dget clean_metadata "hidden_params" with
  | some (.dict hp) =>
    match dget hp "vertex_ai_grounding_metadata" with
    | none => []
    | some .null => []
    | some (.list l) =>
      l.foldl (fun acc elem =>
        acc ++
          match elem with
          | .dict d => d.map (fun p => [("name", Val.str p.1), ("input", p.2)])
          | e => [[("name", Val.str "vertex_ai_grounding_metadata"), ("input", e)]]) []
    | some v => [[("name", Val.str "vertex_ai_grounding_metadata"), ("input", v)]]
  | _ => []

/-- `LangFuseLogger._log_guardrail_information_as_span`: the single guardrail
span, when the standard logging object carries guardrail information. -/
def guardrail_span (slo : Option SLOModel) : Option Dict :=
  match slo with
  | none => none
  | some s =>
    match s.guardrail_information with
    | none => none
    | some gi =>
      some [("name", .str "guardrail"),
            ("input", dgetD gi "guardrail_request" .null),
            ("output", dgetD gi "guardrail_response" .null),
            ("metadata", .dict [("guardrail_name", dgetD gi "guardrail_name" .null),
                                ("guardrail_mode", dgetD gi "guardrail_mode" .null),
                                ("guardrail_masked_entity_count", dgetD gi "masked_entity_count" .null)]),
            ("start_time", dgetD gi "start_time" .null),
            ("end_time", dgetD gi "end_time" .null)]

/-- `debug is True or (isinstance(debug, str) and debug.lower() == "true")`. -/
def debugOn : Val → Bool
  | .bool b => b
  | .str s => pyToLower s == "true"
  | _ => false

/-- The literal redaction marker. -/
def redactedMarker : Val := .str "redacted-by-litellm"

/-- The arguments of `_log_langfuse_v2` (plus the pieces of `kwargs` it
reads: the typed `standard_logging_object` and the response object are held
in their own fields). -/
structure V2Input where
  user_id : Option Val
  metadata : Dict
  litellm_params : Dict
  output : Option Val
  start_time : Val
  end_time : Val
  kwargs : Dict
  slo : Option SLOModel
  optional_params : Dict
  input : Option Val
  response : ResponseObj
  level : String
  litellm_call_id : Option Val

/-- Everything `_log_langfuse_v2` has computed by the time it calls
`self.Langfuse.trace(**trace_params)` (source lines 465–652): the assembled
`trace_params`, the `clean_metadata` state after the cache-hit insertion, the
tag list, the spans about to be emitted, and the control values popped from
the metadata. -/
structure V2Build where
  tags : List String
  traceParams : Dict
  cleanMeta : Dict
  spans : List Dict
  maskInput : Bool
  maskOutput : Bool
  existingTraceId : Val
  updateTraceKeys : List String
  debugVal : Val
  pmmVal : Val

/-- The `update_trace_keys` metadata entry: iterating a non-list raises, and
a non-string element raises at `.replace`. -/
def parseUpdateTraceKeys : Val → Except String (List String)
  | .list l => l.mapM (fun v =>
      match v with
      | .str s => pure s
      | _ => throw "update_trace_keys element is not a string")
  | _ => throw "update_trace_keys is not a list"

/-- One iteration of the metadata-cleaning loop (source lines 503-521):
collect a default tag when configured, skip the four dropped keys, copy
everything else into `clean_metadata`. -/
def cleanStep (ctx : LangfuseCtx) (st : List String × Dict) (p : String × Val) :
    List String × Dict :=
  let tg :=
    match ctx.langfuse_default_tags with
    | some dft => if dft.contains p.1 then st.1 ++ [p.1 ++ ":" ++ pyStr p.2] else st.1
    | none => st.1
  if p.1 ∈ ["headers", "endpoint", "caching_groups", "previous_models"] then (tg, st.2)
  else (tg, dinsert st.2 p.1 p.2)

/-- One iteration of the patch update loop (source lines 548-555): strip
`trace_`, skip keys already present in `trace_params`, pop the value from
`clean_metadata` and record it when it is not `None`. -/
def patchStep (st : Dict × Dict) (k : String) : Dict × Dict :=
  let tk := stripTrace k
  match dget st.1 tk with
  | some _ => st
  | none =>
    let (v, cl') := dpop st.2 k
    match v with
    | some w => if w.isNull then (st.1, cl') else (dinsert st.1 tk w, cl')
    | none => (st.1, cl')

/-- One iteration of the new-trace lifting loop (source lines 583-588): pop a
`trace_`-prefixed key from `clean_metadata` and set it, stripped, on
`trace_params`. -/
def liftStep (st : Dict × Dict) (k : String) : Dict × Dict :=
  let (v, cl') := dpop st.2 k
  (dinsert st.1 (stripTrace k) (v.getD .null), cl')

/-- The control values popped off `clean_metadata` by `_log_langfuse_v2`
(source lines 528-537), together with the derived tag list and the redacted
`clean_metadata` that remain. -/
structure PopsResult where
  tags : List String
  clean : Dict
  session_id : Option Val
  trace_name0 : Option Val
  trace_id : Val
  existing_trace_id : Val
  utkVal : Val
  debugVal : Val
  mask_input : Bool
  mask_output : Bool
  end_user_id : Val
  pmm : Val

/-- Source lines 465-537: tag seeding, `clean_metadata` assembly (one pass
collecting default tags and dropping the four excluded keys), the
`add_default_langfuse_tags` call, the eight control-key pops and the external
redaction. -/
def popControlKeys (ctx : LangfuseCtx) (inp : V2Input) : PopsResult :=
  let tags0 := if supports_tags ctx.sdkVersion then get_langfuse_tags inp.slo else []
  let end_user_id : Val :=
    match inp.slo with
    | none => .null
    | some s => dgetD s.metadata "user_api_key_end_user_id" .null
  let pmm : Val :=
    match inp.slo with
    | none => .null
    | some s => dgetD s.metadata "prompt_management_metadata" .null
  let clean0 : Dict := if pmm.isNull then [] else [("prompt_management_metadata", pmm)]
  let (tags1, clean1) := inp.metadata.foldl (cleanStep ctx) (tags0, clean0)
  let tags2 := add_default_langfuse_tags ctx tags1 inp.kwargs inp.metadata
  let (session_id, clean2) := dpop clean1 "session_id"
  let (trace_name0, clean3) := dpop clean2 "trace_name"
  let (trace_id0, clean4) := dpop clean3 "trace_id"
  let (existing0, clean5) := dpop clean4 "existing_trace_id"
  let (utk0, clean6) := dpop clean5 "update_trace_keys"
  let (debug0, clean7) := dpop clean6 "debug_langfuse"
  let (maskIn0, clean8) := dpop clean7 "mask_input"
  let (maskOut0, clean9) := dpop clean8 "mask_output"
  { tags := tags2, clean := ctx.redact clean9,
    session_id := session_id, trace_name0 := trace_name0,
    trace_id := trace_id0.getD (ov inp.litellm_call_id),
    existing_trace_id := existing0.getD .null,
    utkVal := utk0.getD (.list []),
    debugVal := debug0.getD .null,
    mask_input := truthy (maskIn0.getD (.bool false)),
    mask_output := truthy (maskOut0.getD (.bool false)),
    end_user_id := end_user_id, pmm := pmm }

/-- The new-trace arm (source lines 539-542 and 572-595): default trace
name, `trace_version` pop, the initial `trace_params` literal, the lifting of
remaining `trace_`-prefixed metadata keys, and the error-level
output/status-message choice.  Returns `(trace_params, clean_metadata)`. -/
def newTraceBranch (inp : V2Input) (r : PopsResult) : Dict × Dict :=
  let trace_nameV : Val :=
    if (r.trace_name0.getD .null).isNull && r.existing_trace_id.isNull then
      .str ("litellm-" ++ pyStr (dgetD inp.kwargs "call_type" (.str "completion")))
    else r.trace_name0.getD .null
  let (tv0, cleanA) := dpop r.clean "trace_version"
  let versionV : Val := tv0.getD (dgetD r.clean "version" .null)
  let tp0 : Dict :=
    [("id", r.trace_id), ("name", trace_nameV), ("session_id", r.session_id.getD .null),
     ("input", if r.mask_input then redactedMarker else ov inp.input),
     ("version", versionV), ("user_id", r.end_user_id)]
  let traceKeys := (dkeys cleanA).filter (fun k => pyStartsWith k "trace_")
  let (tp1, cleanB) := traceKeys.foldl liftStep (tp0, cleanA)
  let tp2 :=
    if inp.level == "ERROR" then dinsert tp1 "status_message" (ov inp.output)
    else dinsert tp1 "output" (if r.mask_output then redactedMarker else ov inp.output)
  (tp2, cleanB)

/-- The existing-trace patch arm (source lines 544-571): the update-key loop,
the removal of leftover `trace_`-prefixed keys, and the special `input` /
`output` entries.  Returns `(trace_params, clean_metadata)`. -/
def patchBranch (inp : V2Input) (r : PopsResult) (utkStrs : List String) : Dict × Dict :=
  let tp0 : Dict := [("id", r.existing_trace_id)]
  let (tp1, cleanA) := utkStrs.foldl patchStep (tp0, r.clean)
  let cleanB := cleanA.filter (fun p => !(pyStartsWith p.1 "trace_"))
  let tp2 :=
    if utkStrs.contains "input" then
      dinsert tp1 "input" (if r.mask_input then redactedMarker else ov inp.input)
    else tp1
  let tp3 :=
    if utkStrs.contains "output" then
      dinsert tp2 "output" (if r.mask_output then redactedMarker else ov inp.output)
    else tp2
  (tp3, cleanB)

/-- Debug-mode diagnostics (source lines 597-602): embed the original
metadata under `metadata_passed_to_litellm` inside the trace metadata. -/
def applyDebug (metadata : Dict) (debugVal : Val) (tp : Dict) : Except String Dict :=
  if debugOn debugVal then
    match dget tp "metadata" with
    | none => .ok (dinsert tp "metadata" (.dict [("metadata_passed_to_litellm", .dict metadata)]))
    | some (.dict md) =>
        .ok (dinsert tp "metadata" (.dict (dinsert md "metadata_passed_to_litellm" (.dict metadata))))
    | some _ => .error "trace metadata entry is not a mapping"
  else .ok tp

/-- The late `clean_metadata` insertions (source lines 604-632): response
cost, hidden params, api base, vertex location, aws region. -/
def lateInserts (inp : V2Input) (clean : Dict) : Dict :=
  let cleanC := dinsert clean "litellm_response_cost" (dgetD inp.kwargs "response_cost" .null)
  let cleanD :=
    match inp.slo with
    | some s => dinsert cleanC "hidden_params" s.hidden_params
    | none => cleanC
  let api_base := dgetD inp.litellm_params "api_base" .null
  let cleanE := if truthy api_base then dinsert cleanD "api_base" api_base else cleanD
  let vloc := dgetD inp.kwargs "vertex_location" .null
  let cleanF := if truthy vloc then dinsert cleanE "vertex_location" vloc else cleanE
  let awsr := dgetD inp.kwargs "aws_region_name" .null
  if truthy awsr then dinsert cleanF "aws_region_name" awsr else cleanF

/-- The `proxy_base_url` default tag (source lines 613-620). -/
def proxyBaseUrlTags (ctx : LangfuseCtx) (tags : List String) : List String :=
  match ctx.langfuse_default_tags with
  | some dft =>
    if dft.contains "proxy_base_url" then
      match ctx.proxy_base_url with
      | some u => tags ++ ["proxy_base_url:" ++ u]
      | none => tags
    else tags
  | none => tags

/-- The cache-hit metadata entry and the trace tag attachment (source lines
634-640): both apply only when the SDK supports tags, and tags are attached
to the trace only for a new (non-patch) trace. -/
def applyTagsBlock (ctx : LangfuseCtx) (inp : V2Input) (r : PopsResult)
    (tags : List String) (clean tp : Dict) : Dict × Dict :=
  if supports_tags ctx.sdkVersion then
    let cleanH :=
      match dget inp.kwargs "cache_hit" with
      | none => clean
      | some v => dinsert clean "cache_hit" (if v.isNull then .bool false else v)
    let tpE := if r.existing_trace_id.isNull then dinsert tp "tags" (.list (tags.map .str)) else tp
    (cleanH, tpE)
  else (clean, tp)

/-- The pure first half of `_log_langfuse_v2` (source lines 465-652):
metadata cleaning, tag derivation, the control-key pops, the patch/new-trace
branch assembling `trace_params`, debug-mode diagnostics, the late
`clean_metadata` insertions, and the spans to be emitted.  The dead
`proxy_server_request`/`clean_headers` block (lines 642-652) computes a local
dict that is never used and is omitted. -/
def buildStageA (ctx : LangfuseCtx) (inp : V2Input) : Except String V2Build :=
  let r := popControlKeys ctx inp
  let branch : Except String (Dict × Dict × List String) :=
    if r.existing_trace_id.isNull then
      let (tp2, cleanB) := newTraceBranch inp r
      .ok (tp2, cleanB, [])
    else
      match parseUpdateTraceKeys r.utkVal with
      | .error e => .error e
      | .ok utkStrs =>
        let (tp3, cleanB) := patchBranch inp r utkStrs
        .ok (tp3, cleanB, utkStrs)
  match branch with
  | .error e => .error e
  | .ok (tpB, cleanB, utkStrs) =>
    match applyDebug inp.metadata r.debugVal tpB with
    | .error e => .error e
    | .ok tpD =>
      let cleanG := lateInserts inp cleanB
      let tags3 := proxyBaseUrlTags ctx r.tags
      let (cleanH, tpE) := applyTagsBlock ctx inp r tags3 cleanG tpD
      let spans := provider_spans cleanH ++
        (match guardrail_span inp.slo with
         | some sp => [sp]
         | none => [])
      .ok { tags := tags3, traceParams := tpE, cleanMeta := cleanH, spans := spans,
            maskInput := r.mask_input, maskOutput := r.mask_output,
            existingTraceId := r.existing_trace_id, updateTraceKeys := utkStrs,
            debugVal := r.debugVal, pmmVal := r.pmm }

/-- `_add_prompt_to_generation_params`.  The external langfuse client classes
(`Prompt_Chat`/`ChatPromptClient`, `Prompt_Text`/`TextPromptClient`) are
opaque wrappers here: the wrapped value records which wrapper was applied.
Only the `get_prompt` backend call is inside the source's local
`try`/`except`; a missing `prompt_integration` key or a non-mapping
prompt-management block raises out of this function. -/
def add_prompt_to_generation_params (ctx : LangfuseCtx) (generation_params : Dict)
    (clean_metadata : Dict) (pmm : Val) : Except String (Dict × Dict) :=
  let (up0, clean1) := dpop clean_metadata "prompt"
  let user_prompt : Val := up0.getD .null
  if user_prompt.isNull && pmm.isNull then
    .ok (generation_params, clean1)
  else
    match user_prompt with
    | .dict d =>
      if (dgetD d "type" (.str "")).eqStr "chat" then
        .ok (dinsert generation_params "prompt" (.dict [("chat_prompt_client", .dict d)]), clean1)
      else if (dgetD d "type" (.str "")).eqStr "text" then
        .ok (dinsert generation_params "prompt" (.dict [("text_prompt_client", .dict d)]), clean1)
      else if (dget d "version").isSome && (dget d "prompt").isSome then
        match dget d "prompt" with
        | some (.str _) =>
          -- `user_prompt["name"]` raises when absent
          (match dget d "name" with
           | some _ =>
             .ok (dinsert generation_params "prompt" (.dict [("text_prompt_client", .dict d)]), clean1)
           | none => .error "KeyError: name")
        | some (.list _) =>
          (match dget d "name" with
           | some _ =>
             .ok (dinsert generation_params "prompt" (.dict [("chat_prompt_client", .dict d)]), clean1)
           | none => .error "KeyError: name")
        | _ =>
          -- "Invalid prompt format": logged, nothing attached
          .ok (generation_params, clean1)
      else
        -- "Invalid prompt format. No prompt logged": nothing attached
        .ok (generation_params, clean1)
    | _ =>
      if pmm.isNull then
        -- `else:` arm — the raw metadata prompt value is passed through
        .ok (dinsert generation_params "prompt" user_prompt, clean1)
      else
        match pmm with
        | .dict pd =>
          (match dget pd "prompt_integration" with
           | none => .error "KeyError: prompt_integration"
           | some iv =>
             if iv.eqStr "langfuse" then
               match dget pd "prompt_id" with
               | none => .ok (generation_params, clean1)  -- raise swallowed by the local try
               | some pid =>
                 match ctx.get_prompt pid with
                 | .ok pr => .ok (dinsert generation_params "prompt" pr, clean1)
                 | .error _ => .ok (generation_params, clean1)  -- non-fatal, logged
             else
               .ok (dinsert generation_params "prompt" user_prompt, clean1))
        | _ => .error "prompt_management_metadata is not a mapping"

/-- The second half of `_log_langfuse_v2` (source lines 665-738), split into
a pure core and the fallible steps (`kwargs["model"]`, the prompt
attachment); returns the params together with the local `generation_id`
variable (which is what the function later returns to its caller, even when
the metadata overrides the id actually recorded). -/
structure GenCore where
  gp1 : Dict
  clean3 : Dict
  genIdDerived : Option String

/-- The pure core of the generation assembly (source lines 665-722): the
derived generation id, the usage block, the generation name defaulting, the
system-fingerprint injection into the model parameters, and the
`generation_params` literal together with the optional
`parent_observation_id`. -/
def buildGenerationCore (ctx : LangfuseCtx) (inp : V2Input) (b : V2Build) (model : Val) :
    GenCore :=
  let genIdDerived : Option String :=
    match resp_id inp.response with
    | some v => if v.isNull then none else ctx.get_logging_id inp.response
    | none => none
  let cost : Val := dgetD inp.kwargs "response_cost" .null
  let usage : Val :=
    match resp_usage inp.response with
    | some u =>
      .dict [("prompt_tokens", ov (u.prompt_tokens.orElse (fun _ => u.input_tokens))),
             ("completion_tokens", ov (u.completion_tokens.orElse (fun _ => u.output_tokens))),
             ("total_cost", if supports_costs ctx.sdkVersion then cost else .null)]
    | none => .null
  let (genName0, clean1) := dpop b.cleanMeta "generation_name"
  let generation_name : Val :=
    match genName0 with
    | some v =>
      if v.isNull then
        let keyAlias := dgetD clean1 "user_api_key_alias" .null
        if keyAlias.isNull then
          .str ("litellm-" ++ pyStr (dgetD inp.kwargs "call_type" (.str "completion")))
        else .str ("litellm:" ++ pyStr keyAlias)
      else v
    | none =>
      let keyAlias := dgetD clean1 "user_api_key_alias" .null
      if keyAlias.isNull then
        .str ("litellm-" ++ pyStr (dgetD inp.kwargs "call_type" (.str "completion")))
      else .str ("litellm:" ++ pyStr keyAlias)
  let optional_params1 : Dict :=
    match resp_system_fingerprint inp.response with
    | some v => if v.isNull then inp.optional_params else dinsert inp.optional_params "system_fingerprint" v
    | none => inp.optional_params
  let (genId0, clean2) := dpop clean1 "generation_id"
  let genIdVal : Val :=
    genId0.getD (match genIdDerived with
      | some s => .str s
      | none => .null)
  -- the metadata snapshot is taken inside the dict literal, before the
  -- trailing `version` pop on the same literal line
  let metaSnapshot := log_requester_metadata clean2
  let (version0, clean3) := dpop clean2 "version"
  let gp0 : Dict :=
    [("name", generation_name), ("id", genIdVal), ("start_time", inp.start_time),
     ("end_time", inp.end_time), ("model", model), ("model_parameters", .dict optional_params1),
     ("input", if b.maskInput then redactedMarker else ov inp.input),
     ("output", if b.maskOutput then redactedMarker else ov inp.output),
     ("usage", usage), ("metadata", .dict metaSnapshot), ("level", .str inp.level),
     ("version", version0.getD .null)]
  let parentObs := dgetD inp.metadata "parent_observation_id" .null
  let gp1 := if parentObs.isNull then gp0 else dinsert gp0 "parent_observation_id" parentObs
  { gp1 := gp1, clean3 := clean3, genIdDerived := genIdDerived }

/-- `output is not None and isinstance(output, str)` (source line 731). -/
def isStrOutput : Option Val → Bool
  | some (.str _) => true
  | _ => false

/-- The string payload of an output known to be a string. -/
def theStr : Option Val → String
  | some (.str s) => s
  | _ => ""

/-- The trailing `generation_params` updates (source lines 731-737): the
error-level `status_message`, then `completion_start_time` when supported. -/
def genTail (ctx : LangfuseCtx) (inp : V2Input) (gp2 : Dict) : Dict :=
  let gp3 :=
    if isStrOutput inp.output && (inp.level == "ERROR") then
      dinsert gp2 "status_message" (.str (theStr inp.output))
    else gp2
  if supports_completion_start_time ctx.sdkVersion then
    dinsert gp3 "completion_start_time" (dgetD inp.kwargs "completion_start_time" .null)
  else gp3

def buildGenerationParams (ctx : LangfuseCtx) (inp : V2Input) (b : V2Build) :
    Except String (Dict × Option String) :=
  match dget inp.kwargs "model" with
  | none => .error "KeyError: model"
  | some model =>
  let core := buildGenerationCore ctx inp b model
  let promptRes : Except String (Dict × Dict) :=
    if supports_prompt ctx.sdkVersion then
      add_prompt_to_generation_params ctx core.gp1 core.clean3 b.pmmVal
    else .ok (core.gp1, core.clean3)
  match promptRes with
  | .error e => .error e
  | .ok (gp2, _clean4) => .ok (genTail ctx inp gp2, core.genIdDerived)

/-- Emit a list of spans in order, stopping at the first backend failure. -/
def runSpans (be : Backend) : List Dict → Except String Unit
  | [] => .ok ()
  | sp :: rest =>
    match be.createSpan sp with
    | .error e => .error e
    | .ok _ => runSpans be rest

/-- `LangFuseLogger._log_langfuse_v2`: assemble the records, submit them in
order (trace, provider spans, guardrail span, generation), and catch every
failure, returning `(None, None)` instead (source lines 742-744). -/
def log_langfuse_v2 (ctx : LangfuseCtx) (be : Backend) (inp : V2Input) :
    Option String × Option String :=
  match buildStageA ctx inp with
  | .error _ => (none, none)
  | .ok b =>
    match be.createTrace b.traceParams with
    | .error _ => (none, none)
    | .ok _ =>
      match runSpans be b.spans with
      | .error _ => (none, none)
      | .ok _ =>
        match buildGenerationParams ctx inp b with
        | .error _ => (none, none)
        | .ok (gp, genIdDerived) =>
          match be.createGeneration gp with
          | .error _ => (none, none)
          | .ok tid => (some tid, genIdDerived)

/-- `LangFuseLogger._log_langfuse_v1`: the reduced legacy record set.  Errors
(including a missing `usage` attribute on the response) propagate to the
caller. -/
def log_langfuse_v1 (be : Backend) (user_id : Option Val) (metadata : Dict)
    (output : Option Val) (start_time end_time : Val) (kwargs : Dict)
    (optional_params : Dict) (input : Option Val) (resp : ResponseObj) :
    Except String Unit :=
  match be.createTrace
    [("name", dgetD metadata "generation_name" (.str "litellm-completion")),
     ("input", ov input), ("output", ov output), ("userId", ov user_id)] with
  | .error e => .error e
  | .ok _ =>
  match resp_usage resp with
  | none => .error "AttributeError: usage"
  | some usage =>
  match usage.prompt_tokens with
  | none => .error "AttributeError: prompt_tokens"
  | some pt =>
  match usage.completion_tokens with
  | none => .error "AttributeError: completion_tokens"
  | some ct =>
  match dget kwargs "model" with
  | none => .error "KeyError: model"
  | some model =>
  match be.createGeneration
    [("name", dgetD metadata "generation_name" (.str "litellm-completion")),
     ("startTime", start_time), ("endTime", end_time), ("model", model),
     ("modelParameters", .dict optional_params), ("prompt", ov input),
     ("completion", ov output),
     ("usage", .dict [("prompt_tokens", pt), ("completion_tokens", ct)]),
     ("metadata", .dict metadata)] with
  | .error e => .error e
  | .ok _ => .ok ()

/-- `LangFuseLogger.log_event_on_langfuse`: the top-level logging operation.
The whole body runs under a `try` whose handler returns
`{"trace_id": None, "generation_id": None}`; the result pair models that
dict.  Non-mapping `litellm_params`/`metadata`/`optional_params` values
(which raise inside the `try` and produce the same `(None, None)`) are
modelled as mappings or absent. -/
def log_event_on_langfuse (ctx : LangfuseCtx) (be : Backend) (kwargs : Dict)
    (slo : Option SLOModel) (resp : ResponseObj) (start_time end_time : Val)
    (user_id : Option Val) (level : String) (status_message : Option String) :
    Option String × Option String :=
  let body : Except String (Option String × Option String) :=
    match dget kwargs "litellm_params" with
    | some (.str _) | some (.int _) | some (.bool _) | some .null | some (.list _) =>
      .error "litellm_params is not a mapping"
    | lpEntry =>
    let litellm_params : Dict :=
      match lpEntry with
      | some (.dict d) => d
      | _ => []
    let litellm_call_id := dget kwargs "litellm_call_id"
    let metadata0 : Dict :=
      match dget litellm_params "metadata" with
      | some (.dict d) => d
      | _ => []  -- `litellm_params.get("metadata", ...) or ...`
    let metadata : Dict := (add_metadata_from_header (some litellm_params) (some metadata0)).getD []
    match dget kwargs "optional_params" with
    | some (.str _) | some (.int _) | some (.bool _) | some .null | some (.list _) =>
      .error "optional_params is not a mapping"
    | opEntry =>
    let optional_params0 : Dict :=
      match opEntry with
      | some (.dict d) => d
      | _ => []
    let prompt0 : Dict := [("messages", dgetD kwargs "messages" .null)]
    let (functions0, op1) := dpop optional_params0 "functions"
    let (tools0, op2) := dpop op1 "tools"
    let prompt1 :=
      match functions0 with
      | some v => if v.isNull then prompt0 else dinsert prompt0 "functions" v
      | none => prompt0
    let prompt2 :=
      match tools0 with
      | some v => if v.isNull then prompt1 else dinsert prompt1 "tools" v
      | none => prompt1
    -- "langfuse only accepts str, int, bool, float for logging": stringify
    -- everything else (str() on these values cannot fail)
    let optional_params : Dict := op2.map (fun p =>
      match p.2 with
      | .str _ => p
      | .int _ => p
      | .bool _ => p
      | v => (p.1, .str (pyStr v)))
    let (input, output) := get_langfuse_input_output_content (dget kwargs "call_type")
      (dget kwargs "input") resp prompt2 level status_message
    if is_langfuse_v2 ctx.sdkVersion then
      .ok (log_langfuse_v2 ctx be
        { user_id := user_id, metadata := metadata, litellm_params := litellm_params,
          output := output, start_time := start_time, end_time := end_time,
          kwargs := kwargs, slo := slo, optional_params := optional_params,
          input := input, response := resp, level := level,
          litellm_call_id := litellm_call_id })
    else if resp matches .nullResp then
      .ok (none, none)
    else
      match log_langfuse_v1 be user_id metadata output start_time end_time kwargs
        optional_params input resp with
      | .error e => .error e
      | .ok _ => .ok (none, none)
  match body with
  | .ok r => r
  | .error _ => (none, none)

/-! ## Concrete instances used by witnesses and counterexamples -/

def ctxStd : LangfuseCtx :=
  { sdkVersion := (2, 6, 3), langfuse_default_tags := none, redact := id,
    get_logging_id := fun _ => none, proxy_base_url := none,
    cache_fallback_key := none, get_prompt := fun _ => .error "unavailable" }

def emptyBuild : V2Build :=
  { tags := [], traceParams := [], cleanMeta := [], spans := [], maskInput := false,
    maskOutput := false, existingTraceId := .null, updateTraceKeys := [],
    debugVal := .null, pmmVal := .null }

/-- The successful stage-A build of a concrete input (used to name the build
record in closed statements). -/
def stageAOf (ctx : LangfuseCtx) (inp : V2Input) : V2Build :=
  match buildStageA ctx inp with
  | .ok b => b
  | .error _ => emptyBuild

/-- The generation params of a concrete input (empty on failure). -/
def genParamsOf (ctx : LangfuseCtx) (inp : V2Input) : Dict :=
  match buildGenerationParams ctx inp (stageAOf ctx inp) with
  | .ok (gp, _) => gp
  | .error _ => []

/-- The derived generation id of a concrete input. -/
def genIdOf (ctx : LangfuseCtx) (inp : V2Input) : Option String :=
  match buildGenerationParams ctx inp (stageAOf ctx inp) with
  | .ok (_, gid) => gid
  | .error _ => none

def beOk : Backend :=
  { createTrace := fun _ => .ok (), createSpan := fun _ => .ok (),
    createGeneration := fun _ => .ok "resolved-trace-id" }

def beFailTrace : Backend := { beOk with createTrace := fun _ => .error "trace down" }

def beFailGen : Backend := { beOk with createGeneration := fun _ => .error "generation down" }

def beFailSpan : Backend := { beOk with createSpan := fun _ => .error "span down" }

def inpBase : V2Input :=
  { user_id := none, metadata := [], litellm_params := [], output := none,
    start_time := .null, end_time := .null, kwargs := [("model", .str "gpt-test")],
    slo := none, optional_params := [], input := none, response := .nullResp,
    level := "DEFAULT", litellm_call_id := some (.str "call-1") }

def sloGuard : SLOModel :=
  { metadata := [], hidden_params := .null, request_tags := [],
    guardrail_information := some [] }

def inpGuard : V2Input := { inpBase with slo := some sloGuard }

def inpMaskClash : V2Input :=
  { inpBase with
    metadata := [("mask_input", .bool true), ("trace_input", .str "secret")],
    input := some (.dict [("messages", .str "hi")]) }

def inpMask : V2Input :=
  { inpBase with
    metadata := [("mask_input", .bool true), ("mask_output", .bool true)],
    input := some (.dict [("messages", .str "hi")]),
    output := some (.str "hello") }

def inpMaskPatch : V2Input :=
  { inpMask with
    metadata := [("mask_input", .bool true), ("mask_output", .bool true),
                 ("existing_trace_id", .str "t1"),
                 ("update_trace_keys", .list [.str "input", .str "output"])] }

def inpStatusClash : V2Input :=
  { inpBase with
    metadata := [("trace_status_message", .str "x")],
    output := some (.str "ok-output") }

def inpError : V2Input :=
  { inpBase with level := "ERROR", output := some (.str "boom") }

def inpDebugPatch : V2Input :=
  { inpBase with
    metadata := [("existing_trace_id", .str "t1"), ("debug_langfuse", .bool true)] }

def inpPatch : V2Input :=
  { inpBase with
    metadata := [("existing_trace_id", .str "t1"),
                 ("update_trace_keys", .list [.str "trace_user_id", .str "input"]),
                 ("trace_user_id", .str "u9"), ("trace_release", .str "r2")],
    input := some (.str "the-input") }

def inpCtrlClash : V2Input :=
  { inpBase with
    metadata := [("existing_trace_id", .str "t1"), ("trace_version", .str "7"),
                 ("update_trace_keys", .list [.str "trace_version"])] }

def inpCtrl : V2Input :=
  { inpBase with
    metadata := [("existing_trace_id", .str "t1"), ("session_id", .str "s1"),
                 ("update_trace_keys",
                  .list [.str "session_id", .str "trace_name", .str "mask_input"])] }

/-- A litellm-params dict carrying a proxy request with one `langfuse_`
header and one plain header. -/
def lpHdr : Dict :=
  [("proxy_server_request", .dict [("headers",
      .dict [("langfuse_trace_id", .str "tid-9"), ("accept", .str "json")])])]

def mdHdr : Dict := [("trace_id", .str "old")]

/-! ## Dictionary lemmas -/

theorem dget_cons (p : String × Val) (d : Dict) (k : String) :
    dget (p :: d) k = if p.1 = k then some p.2 else dget d k := by
  by_cases h : p.1 = k <;> simp [dget, List.find?_cons, h]

theorem dget_isSome_eq_any (d : Dict) (k : String) :
    (dget d k).isSome = d.any (fun p => p.1 == k) := by
  induction d with
  | nil => rfl
  | cons p d ih =>
    rw [dget_cons]
    by_cases h : p.1 = k <;> simp [h, ih]

theorem dget_map_overwrite (d : Dict) (k k' : String) (v : Val) :
    dget (d.map (fun p => if p.1 == k then (k, v) else p)) k' =
      if k' = k then (dget d k).map (fun _ => v) else dget d k' := by
  induction d with
  | nil => by_cases h : k' = k <;> simp [dget, h]
  | cons p d ih =>
    simp only [beq_iff_eq] at ih ⊢
    by_cases hp : p.1 = k
    · by_cases hk : k' = k
      · subst hk
        simp [hp, dget_cons]
      · have hk' : ¬ k = k' := fun h => hk h.symm
        simp [hp, dget_cons, hk, hk', ih]
    · by_cases hk : k' = k
      · subst hk
        simp [hp, dget_cons, ih]
      · simp [hp, dget_cons, hk, ih]

theorem dget_append_single (d : Dict) (k k' : String) (v : Val) :
    dget (d ++ [(k, v)]) k' =
      match dget d k' with
      | some w => some w
      | none => if k' = k then some v else none := by
  induction d with
  | nil =>
    by_cases h : k' = k
    · subst h; simp [dget_cons, dget]
    · have h' : ¬ k = k' := fun hh => h hh.symm
      simp [dget_cons, dget, h, h']
  | cons p d ih =>
    by_cases hp : p.1 = k'
    · simp [List.cons_append, dget_cons, hp]
    · simp [List.cons_append, dget_cons, hp, ih]

theorem dget_dinsert (d : Dict) (k k' : String) (v : Val) :
    dget (dinsert d k v) k' = if k' = k then some v else dget d k' := by
  unfold dinsert
  by_cases hany : d.any (fun p => p.1 == k)
  · rw [if_pos hany, dget_map_overwrite]
    by_cases hk : k' = k
    · have : (dget d k).isSome := by rw [dget_isSome_eq_any]; exact hany
      rcases h : dget d k with _ | w
      · rw [h] at this; simp at this
      · simp [hk, h]
    · simp [hk]
  · rw [if_neg hany, dget_append_single]
    have hnone : dget d k = none := by
      have := dget_isSome_eq_any d k
      rcases h : dget d k with _ | w
      · rfl
      · rw [h] at this; simp [hany] at this
    by_cases hk : k' = k
    · subst hk; simp [hnone]
    · rcases h : dget d k' with _ | w <;> simp [h, hk]

theorem dget_dinsert_self (d : Dict) (k : String) (v : Val) :
    dget (dinsert d k v) k = some v := by
  simp [dget_dinsert]

theorem dget_dinsert_ne (d : Dict) (k k' : String) (v : Val) (h : k' ≠ k) :
    dget (dinsert d k v) k' = dget d k' := by
  simp [dget_dinsert, h]

theorem dget_filterKeys (q : String → Bool) (d : Dict) (k : String) :
    dget (d.filter (fun p => !(q p.1))) k = if q k then none else dget d k := by
  induction d with
  | nil => by_cases h : q k <;> simp [dget, h]
  | cons p d ih =>
    by_cases hq : q p.1
    · have hfilter : (p :: d).filter (fun p => !(q p.1)) = d.filter (fun p => !(q p.1)) := by
        simp [List.filter_cons, hq]
      rw [hfilter, ih, dget_cons]
      by_cases hk : p.1 = k
      · subst hk; simp [hq]
      · by_cases hqk : q k <;> simp [hqk, hk]
    · have hfilter : (p :: d).filter (fun p => !(q p.1)) =
          p :: d.filter (fun p => !(q p.1)) := by
        simp [List.filter_cons, hq]
      rw [hfilter, dget_cons, dget_cons]
      by_cases hk : p.1 = k
      · subst hk; simp [hq]
      · simp [hk, ih]

theorem dget_dpop_snd (d : Dict) (k k' : String) :
    dget (dpop d k).2 k' = if k' = k then none else dget d k' := by
  have h := dget_filterKeys (fun s => s == k) d k'
  simp only [dpop]
  by_cases hk : k' = k
  · subst hk; simpa using h
  · simp only [bne]
    simpa [hk] using h

theorem dget_dpop_snd_self (d : Dict) (k : String) : dget (dpop d k).2 k = none := by
  simp [dget_dpop_snd]

theorem dget_dpop_snd_ne (d : Dict) (k k' : String) (h : k' ≠ k) :
    dget (dpop d k).2 k' = dget d k' := by
  simp [dget_dpop_snd, h]

/-! ## Fold lemmas -/

theorem liftFold_fst_dget (ks : List String) (tp cl : Dict) (s : String)
    (h : ∀ k ∈ ks, stripTrace k ≠ s) :
    dget (ks.foldl liftStep (tp, cl)).1 s = dget tp s := by
  induction ks generalizing tp cl with
  | nil => rfl
  | cons k ks ih =>
    rw [List.foldl_cons]
    have hstep : liftStep (tp, cl) k =
        (dinsert tp (stripTrace k) ((dget cl k).getD .null), (dpop cl k).2) := rfl
    rw [hstep, ih _ _ (fun k' hk' => h k' (List.mem_cons_of_mem _ hk'))]
    exact dget_dinsert_ne _ _ _ _ (Ne.symm (h k (List.mem_cons_self _ _)))

theorem patchFold_fst_of_absent (ks : List String) (tp cl : Dict)
    (h : ∀ k ∈ ks, dget cl k = none) :
    (ks.foldl patchStep (tp, cl)).1 = tp := by
  induction ks generalizing tp cl with
  | nil => rfl
  | cons k ks ih =>
    rw [List.foldl_cons]
    have hk := h k (List.mem_cons_self _ _)
    rcases htp : dget tp (stripTrace k) with _ | w
    · have hstep : patchStep (tp, cl) k = (tp, (dpop cl k).2) := by
        simp [patchStep, htp, dpop, hk]
      rw [hstep]
      refine ih _ _ (fun k' hk' => ?hgoal)
      rw [dget_dpop_snd]
      by_cases e : k' = k
      · simp [e]
      · simp [e, h k' (List.mem_cons_of_mem _ hk')]
    · have hstep : patchStep (tp, cl) k = (tp, cl) := by simp [patchStep, htp]
      rw [hstep]
      exact ih _ _ (fun k' hk' => h k' (List.mem_cons_of_mem _ hk'))

theorem patchFold_fst_keys (ks : List String) (tp cl : Dict) (s : String)
    (h : dget (ks.foldl patchStep (tp, cl)).1 s ≠ none) :
    dget tp s ≠ none ∨ ∃ k ∈ ks, stripTrace k = s := by
  induction ks generalizing tp cl with
  | nil => exact .inl h
  | cons k ks ih =>
    rw [List.foldl_cons] at h
    have hlift : ∀ tp' cl', patchStep (tp, cl) k = (tp', cl') →
        (tp' = tp ∨ tp' = dinsert tp (stripTrace k) ((dget cl k).getD .null)) := by
      intro tp' cl' hstep
      unfold patchStep at hstep
      rcases htp : dget tp (stripTrace k) with _ | w
      · simp only [htp] at hstep
        rcases hv : dget cl k with _ | w'
        · simp [dpop, hv] at hstep
          exact .inl hstep.1.symm
        · simp only [dpop, hv] at hstep
          by_cases hnull : w'.isNull
          · simp [hnull] at hstep
            exact .inl hstep.1.symm
          · simp [hnull, hv] at hstep
            refine .inr ?hrr
            rw [← hstep.1]
            simp
      · simp [htp] at hstep
        exact .inl hstep.1.symm
    rcases hstep : patchStep (tp, cl) k with ⟨tp', cl'⟩
    rw [hstep] at h
    rcases ih tp' cl' h with h1 | ⟨k', hk', hs⟩
    · rcases hlift tp' cl' hstep with rfl | rfl
      · exact .inl h1
      · rw [dget_dinsert] at h1
        by_cases e : s = stripTrace k
        · exact .inr ⟨k, List.mem_cons_self _ _, e.symm⟩
        · rw [if_neg e] at h1
          exact .inl h1
    · exact .inr ⟨k', List.mem_cons_of_mem _ hk', hs⟩

theorem cleanFold_snd_keys (ctx : LangfuseCtx) (md : List (String × Val))
    (acc : List String × Dict) (s : String)
    (h : dget (md.foldl (cleanStep ctx) acc).2 s ≠ none) :
    dget acc.2 s ≠ none ∨ s ∈ md.map (fun p => p.1) := by
  induction md generalizing acc with
  | nil => exact .inl h
  | cons p md ih =>
    rw [List.foldl_cons] at h
    have hsnd : (cleanStep ctx acc p).2 = acc.2 ∨
        (cleanStep ctx acc p).2 = dinsert acc.2 p.1 p.2 := by
      unfold cleanStep
      by_cases hdrop : p.1 ∈ ["headers", "endpoint", "caching_groups", "previous_models"]
      · simp [hdrop]
      · simp [hdrop]
    rcases ih (cleanStep ctx acc p) h with h1 | h1
    · rcases hsnd with he | he
      · rw [he] at h1
        exact .inl h1
      · rw [he, dget_dinsert] at h1
        by_cases e : s = p.1
        · exact .inr (by simp [e])
        · rw [if_neg e] at h1
          exact .inl h1
    · exact .inr (by simp; right; simpa using h1)

theorem headerFold_id (hdrs : List (String × Val)) (m : Dict)
    (h : ∀ p ∈ hdrs, pyStartsWith p.1 "langfuse_" = false) :
    hdrs.foldl headerStep m = m := by
  induction hdrs generalizing m with
  | nil => rfl
  | cons p hdrs ih =>
    rw [List.foldl_cons]
    have hstep : headerStep m p = m := by
      simp [headerStep, h p (List.mem_cons_self _ _)]
    rw [hstep]
    exact ih _ (fun q hq => h q (List.mem_cons_of_mem _ hq))

theorem headerFold_dget_untouched (hdrs : List (String × Val)) (m : Dict) (s : String)
    (h : ∀ p ∈ hdrs, ¬(pyStartsWith p.1 "langfuse_" = true ∧ stripLangfuse p.1 = s)) :
    dget (hdrs.foldl headerStep m) s = dget m s := by
  induction hdrs generalizing m with
  | nil => rfl
  | cons p hdrs ih =>
    rw [List.foldl_cons, ih _ (fun q hq => h q (List.mem_cons_of_mem _ hq))]
    unfold headerStep
    by_cases hp : pyStartsWith p.1 "langfuse_"
    · rw [if_pos hp, dget_dinsert_ne]
      intro he
      exact h p (List.mem_cons_self _ _) ⟨hp, he.symm⟩
    · rw [if_neg hp]

theorem stripLangfuse_inj {a b : String}
    (ha : pyStartsWith a "langfuse_" = true) (hb : pyStartsWith b "langfuse_" = true)
    (h : stripLangfuse a = stripLangfuse b) : a = b := by
  have hlen : "langfuse_".toList.length = 9 := rfl
  rw [pyStartsWith, List.isPrefixOf_iff_prefix] at ha hb
  obtain ⟨ta, hta⟩ := ha
  obtain ⟨tb, htb⟩ := hb
  have hda : a.toList.drop 9 = ta := by
    rw [← hta, ← hlen, List.drop_left]
  have hdb : b.toList.drop 9 = tb := by
    rw [← htb, ← hlen, List.drop_left]
  have : ta = tb := by
    have h' := h
    unfold stripLangfuse at h'
    rw [hda, hdb] at h'
    injection h'
  have hab : a.toList = b.toList := by rw [← hta, ← htb, this]
  have : a.data = b.data := hab
  cases a; cases b; simp at this; simp [this]

theorem headerFold_dget_set (hdrs : List (String × Val)) (m : Dict) (k : String) (v : Val)
    (hmem : (k, v) ∈ hdrs) (hpre : pyStartsWith k "langfuse_" = true)
    (hnodup : (hdrs.map (fun p => p.1)).Nodup) :
    dget (hdrs.foldl headerStep m) (stripLangfuse k) = some v := by
  induction hdrs generalizing m with
  | nil => cases hmem
  | cons p hdrs ih =>
    rcases List.mem_cons.mp hmem with rfl | htl
    · rw [List.foldl_cons]
      have hstep : headerStep m (k, v) = dinsert m (stripLangfuse k) v := by
        simp [headerStep, hpre]
      rw [hstep, headerFold_dget_untouched]
      · exact dget_dinsert_self _ _ _
      · intro q hq hcon
        obtain ⟨hq1, hq2⟩ := hcon
        have hqk : q.1 = k := stripLangfuse_inj hq1 hpre hq2
        rw [List.map_cons, List.nodup_cons] at hnodup
        have hmm : q.1 ∈ hdrs.map (fun p => p.1) := List.mem_map_of_mem _ hq
        rw [hqk] at hmm
        exact hnodup.1 hmm
    · rw [List.foldl_cons]
      refine ih _ htl ?htail
      rw [List.map_cons, List.nodup_cons] at hnodup
      exact hnodup.2

/-! ## Stage lemmas for the v2 trace build -/

theorem dget_isSome_of_mem_dkeys (d : Dict) (k : String) (h : k ∈ dkeys d) :
    (dget d k).isSome := by
  induction d with
  | nil => cases h
  | cons p d ih =>
    rw [dget_cons]
    rcases List.mem_cons.mp h with he | htl
    · simp [dkeys] at he
      simp [he.symm]
    · by_cases hp : p.1 = k
      · simp [hp]
      · simpa [hp] using ih (by simpa [dkeys] using htl)

/-- The external redaction helper does not invent new metadata keys (the
spec's contract for `redact` only permits transforming values of known
keys). -/
def RedactKeepsKeys (redact : Dict → Dict) : Prop :=
  ∀ d k, (dget (redact d) k).isSome → (dget d k).isSome

theorem redactKeepsKeys_id : RedactKeepsKeys id := fun _ _ h => h

theorem popControlKeys_clean_control_none (ctx : LangfuseCtx) (inp : V2Input)
    (hred : RedactKeepsKeys ctx.redact) (k : String)
    (hk : k ∈ ["session_id", "trace_name", "trace_id", "existing_trace_id",
               "update_trace_keys", "debug_langfuse", "mask_input", "mask_output"]) :
    dget (popControlKeys ctx inp).clean k = none := by
  rcases hsome : dget (popControlKeys ctx inp).clean k with _ | v
  · rfl
  · exfalso
    have hks : (dget (popControlKeys ctx inp).clean k).isSome := by rw [hsome]; rfl
    unfold popControlKeys at hks
    simp only [] at hks
    have h9 := hred _ _ hks
    fin_cases hk <;> simp [dget_dpop_snd] at h9

theorem popControlKeys_clean_keys_subset (ctx : LangfuseCtx) (inp : V2Input)
    (hred : RedactKeepsKeys ctx.redact) (s : String)
    (hs : (dget (popControlKeys ctx inp).clean s).isSome) :
    s = "prompt_management_metadata" ∨ s ∈ inp.metadata.map (fun p => p.1) := by
  unfold popControlKeys at hs
  simp only [] at hs
  have h9 := hred _ _ hs
  by_cases h1 : s = "session_id"; · simp [h1, dget_dpop_snd] at h9
  by_cases h2 : s = "trace_name"; · simp [h2, dget_dpop_snd] at h9
  by_cases h3 : s = "trace_id"; · simp [h3, dget_dpop_snd] at h9
  by_cases h4 : s = "existing_trace_id"; · simp [h4, dget_dpop_snd] at h9
  by_cases h5 : s = "update_trace_keys"; · simp [h5, dget_dpop_snd] at h9
  by_cases h6 : s = "debug_langfuse"; · simp [h6, dget_dpop_snd] at h9
  by_cases h7 : s = "mask_input"; · simp [h7, dget_dpop_snd] at h9
  by_cases h8 : s = "mask_output"; · simp [h8, dget_dpop_snd] at h9
  rw [dget_dpop_snd, if_neg h8, dget_dpop_snd, if_neg h7, dget_dpop_snd, if_neg h6,
      dget_dpop_snd, if_neg h5, dget_dpop_snd, if_neg h4, dget_dpop_snd, if_neg h3,
      dget_dpop_snd, if_neg h2, dget_dpop_snd, if_neg h1] at h9
  have hclean1 := cleanFold_snd_keys ctx inp.metadata _ s (by
    intro hnone
    rw [hnone] at h9
    simp at h9)
  rcases hclean1 with h | h
  · left
    dsimp only at h
    by_cases hpmm : (match inp.slo with
        | none => Val.null
        | some sl => dgetD sl.metadata "prompt_management_metadata" Val.null).isNull = true
    · rw [if_pos hpmm] at h
      simp [dget] at h
    · rw [if_neg hpmm] at h
      by_cases he : "prompt_management_metadata" = s
      · exact he.symm
      · rw [dget_cons, if_neg he] at h
        simp [dget] at h
  · exact .inr h

theorem newTraceBranch_fst_dget_untouched (inp : V2Input) (r : PopsResult) (s : String)
    (hno : ∀ k, pyStartsWith k "trace_" = true → (dget r.clean k).isSome → stripTrace k ≠ s)
    (hsm : s ≠ "status_message") (hout : s ≠ "output") :
    dget (newTraceBranch inp r).1 s =
      dget [("id", r.trace_id),
            ("name", if (r.trace_name0.getD .null).isNull && r.existing_trace_id.isNull then
                .str ("litellm-" ++ pyStr (dgetD inp.kwargs "call_type" (.str "completion")))
              else r.trace_name0.getD .null),
            ("session_id", r.session_id.getD .null),
            ("input", if r.mask_input then redactedMarker else ov inp.input),
            ("version", ((dpop r.clean "trace_version").1).getD (dgetD r.clean "version" .null)),
            ("user_id", r.end_user_id)] s := by
  unfold newTraceBranch
  dsimp only
  rw [show ∀ a b : Dict, (a, b).1 = a from fun _ _ => rfl]
  by_cases hlev : (inp.level == "ERROR") = true
  · rw [if_pos hlev, dget_dinsert_ne _ _ _ _ hsm]
    rw [liftFold_fst_dget]
    intro k hk
    have hks : k ∈ dkeys (dpop r.clean "trace_version").2 ∧ pyStartsWith k "trace_" = true := by
      have := List.mem_filter.mp hk
      exact ⟨this.1, this.2⟩
    have hsome : (dget (dpop r.clean "trace_version").2 k).isSome :=
      dget_isSome_of_mem_dkeys _ _ hks.1
    rw [dget_dpop_snd] at hsome
    by_cases he : k = "trace_version"
    · simp [he] at hsome
    · rw [if_neg he] at hsome
      exact hno k hks.2 hsome
  · rw [if_neg hlev, dget_dinsert_ne _ _ _ _ hout]
    rw [liftFold_fst_dget]
    intro k hk
    have hks : k ∈ dkeys (dpop r.clean "trace_version").2 ∧ pyStartsWith k "trace_" = true := by
      have := List.mem_filter.mp hk
      exact ⟨this.1, this.2⟩
    have hsome : (dget (dpop r.clean "trace_version").2 k).isSome :=
      dget_isSome_of_mem_dkeys _ _ hks.1
    rw [dget_dpop_snd] at hsome
    by_cases he : k = "trace_version"
    · simp [he] at hsome
    · rw [if_neg he] at hsome
      exact hno k hks.2 hsome

theorem newTraceBranch_error_fields (inp : V2Input) (r : PopsResult)
    (hno : ∀ k, pyStartsWith k "trace_" = true → (dget r.clean k).isSome →
      stripTrace k ≠ "status_message" ∧ stripTrace k ≠ "output") :
    (inp.level = "ERROR" →
      dget (newTraceBranch inp r).1 "status_message" = some (ov inp.output) ∧
      dget (newTraceBranch inp r).1 "output" = none) ∧
    (inp.level ≠ "ERROR" →
      dget (newTraceBranch inp r).1 "output" =
        some (if r.mask_output then redactedMarker else ov inp.output) ∧
      dget (newTraceBranch inp r).1 "status_message" = none) := by
  have hlift : ∀ s : String, s ≠ "id" → s ≠ "name" → s ≠ "session_id" → s ≠ "input" →
      s ≠ "version" → s ≠ "user_id" →
      (∀ k, pyStartsWith k "trace_" = true → (dget r.clean k).isSome → stripTrace k ≠ s) →
      ∀ tpend, dget
        (((dkeys (dpop r.clean "trace_version").2).filter
            (fun k => pyStartsWith k "trace_")).foldl liftStep (tpend, (dpop r.clean "trace_version").2)).1 s
        = dget tpend s := by
    intro s h1 h2 h3 h4 h5 h6 hno' tpend
    rw [liftFold_fst_dget]
    intro k hk
    have hks := List.mem_filter.mp hk
    have hsome : (dget (dpop r.clean "trace_version").2 k).isSome :=
      dget_isSome_of_mem_dkeys _ _ hks.1
    rw [dget_dpop_snd] at hsome
    by_cases he : k = "trace_version"
    · simp [he] at hsome
    · rw [if_neg he] at hsome
      exact hno' k hks.2 hsome
  constructor
  · intro hlev
    have hlev' : (inp.level == "ERROR") = true := by simp [hlev]
    unfold newTraceBranch
    dsimp only
    rw [if_pos hlev']
    constructor
    · rw [show ∀ a b : Dict, (a, b).1 = a from fun _ _ => rfl, dget_dinsert_self]
    · rw [show ∀ a b : Dict, (a, b).1 = a from fun _ _ => rfl,
        dget_dinsert_ne _ _ _ _ (by simp)]
      rw [hlift "output" (by simp) (by simp) (by simp) (by simp) (by simp) (by simp)
        (fun k hk hs => (hno k hk hs).2)]
      simp [dget_cons, dget]
  · intro hlev
    have hlev' : (inp.level == "ERROR") = false := by
      simp only [beq_eq_false_iff_ne, ne_eq]
      exact hlev
    unfold newTraceBranch
    dsimp only
    rw [show ∀ a b : Dict, (a, b).1 = a from fun _ _ => rfl, if_neg (by simp [hlev'])]
    constructor
    · rw [dget_dinsert_self]
    · rw [dget_dinsert_ne _ _ _ _ (by simp)]
      rw [hlift "status_message" (by simp) (by simp) (by simp) (by simp) (by simp) (by simp)
        (fun k hk hs => (hno k hk hs).1)]
      simp [dget_cons, dget]

theorem contains_mem {l : List String} {a : String} (h : l.contains a = true) : a ∈ l := by
  simpa using h

theorem not_contains_not_mem {l : List String} {a : String} (h : l.contains a = false) :
    a ∉ l := by
  intro hm
  have hc : l.contains a = true := by simpa using hm
  rw [h] at hc
  exact Bool.false_ne_true hc

theorem dget_filter_trace (d : Dict) (k : String) :
    dget (d.filter (fun p => !(pyStartsWith p.1 "trace_"))) k =
      if pyStartsWith k "trace_" then none else dget d k :=
  dget_filterKeys (fun s => pyStartsWith s "trace_") d k

theorem patchBranch_fst_keys (inp : V2Input) (r : PopsResult) (utkStrs : List String)
    (s : String) (h : dget (patchBranch inp r utkStrs).1 s ≠ none) :
    s = "id" ∨ ∃ k ∈ utkStrs, stripTrace k = s := by
  unfold patchBranch at h
  dsimp only at h
  by_cases ho : utkStrs.contains "output" = true
  · rw [if_pos ho] at h
    by_cases hso : s = "output"
    · exact .inr ⟨"output", contains_mem ho, by subst hso; rfl⟩
    · rw [dget_dinsert_ne _ _ _ _ hso] at h
      by_cases hi : utkStrs.contains "input" = true
      · rw [if_pos hi] at h
        by_cases hsi : s = "input"
        · exact .inr ⟨"input", contains_mem hi, by subst hsi; rfl⟩
        · rw [dget_dinsert_ne _ _ _ _ hsi] at h
          rcases patchFold_fst_keys _ _ _ _ h with h1 | h1
          · left
            rcases hcc : dget [("id", r.existing_trace_id)] s with _ | w
            · rw [hcc] at h1; exact absurd rfl h1
            · rw [dget_cons] at hcc
              by_cases he : "id" = s
              · exact he.symm
              · simp [he, dget] at hcc
          · exact .inr h1
      · rw [if_neg hi] at h
        rcases patchFold_fst_keys _ _ _ _ h with h1 | h1
        · left
          rcases hcc : dget [("id", r.existing_trace_id)] s with _ | w
          · rw [hcc] at h1; exact absurd rfl h1
          · rw [dget_cons] at hcc
            by_cases he : "id" = s
            · exact he.symm
            · simp [he, dget] at hcc
        · exact .inr h1
  · rw [if_neg ho] at h
    by_cases hi : utkStrs.contains "input" = true
    · rw [if_pos hi] at h
      by_cases hsi : s = "input"
      · exact .inr ⟨"input", contains_mem hi, by subst hsi; rfl⟩
      · rw [dget_dinsert_ne _ _ _ _ hsi] at h
        rcases patchFold_fst_keys _ _ _ _ h with h1 | h1
        · left
          rcases hcc : dget [("id", r.existing_trace_id)] s with _ | w
          · rw [hcc] at h1; exact absurd rfl h1
          · rw [dget_cons] at hcc
            by_cases he : "id" = s
            · exact he.symm
            · simp [he, dget] at hcc
        · exact .inr h1
    · rw [if_neg hi] at h
      rcases patchFold_fst_keys _ _ _ _ h with h1 | h1
      · left
        rcases hcc : dget [("id", r.existing_trace_id)] s with _ | w
        · rw [hcc] at h1; exact absurd rfl h1
        · rw [dget_cons] at hcc
          by_cases he : "id" = s
          · exact he.symm
          · simp [he, dget] at hcc
      · exact .inr h1

theorem patchBranch_input (inp : V2Input) (r : PopsResult) (utkStrs : List String)
    (hin : utkStrs.contains "input" = true) :
    dget (patchBranch inp r utkStrs).1 "input" =
      some (if r.mask_input then redactedMarker else ov inp.input) := by
  unfold patchBranch
  dsimp only
  by_cases ho : utkStrs.contains "output" = true
  · rw [if_pos ho, dget_dinsert_ne _ _ _ _ (by simp), if_pos hin, dget_dinsert_self]
  · rw [if_neg ho, if_pos hin, dget_dinsert_self]

theorem patchBranch_output (inp : V2Input) (r : PopsResult) (utkStrs : List String)
    (hout : utkStrs.contains "output" = true) :
    dget (patchBranch inp r utkStrs).1 "output" =
      some (if r.mask_output then redactedMarker else ov inp.output) := by
  unfold patchBranch
  dsimp only
  rw [if_pos hout, dget_dinsert_self]

theorem patchBranch_controls (inp : V2Input) (r : PopsResult) (utkStrs : List String)
    (hall : ∀ k ∈ utkStrs, dget r.clean k = none)
    (hni : utkStrs.contains "input" = false) (hno : utkStrs.contains "output" = false) :
    (patchBranch inp r utkStrs).1 = [("id", r.existing_trace_id)] := by
  unfold patchBranch
  dsimp only
  rw [if_neg (by rw [hno]; exact Bool.false_ne_true),
      if_neg (by rw [hni]; exact Bool.false_ne_true)]
  exact patchFold_fst_of_absent _ _ _ hall

theorem patchBranch_snd_no_trace_keys (inp : V2Input) (r : PopsResult)
    (utkStrs : List String) (k : String) (hk : pyStartsWith k "trace_" = true) :
    dget (patchBranch inp r utkStrs).2 k = none := by
  unfold patchBranch
  dsimp only
  rw [dget_filter_trace, if_pos hk]

theorem applyDebug_dget_ne (metadata : Dict) (dv : Val) (tp tpD : Dict)
    (hok : applyDebug metadata dv tp = .ok tpD) (s : String) (hs : s ≠ "metadata") :
    dget tpD s = dget tp s := by
  unfold applyDebug at hok
  by_cases hd : debugOn dv = true
  · rw [if_pos hd] at hok
    rcases hm : dget tp "metadata" with _ | v
    · rw [hm] at hok
      injection hok with h
      rw [← h, dget_dinsert_ne _ _ _ _ hs]
    · rw [hm] at hok
      cases v with
      | dict md =>
        injection hok with h
        rw [← h, dget_dinsert_ne _ _ _ _ hs]
      | str a => exact absurd hok (by simp)
      | int a => exact absurd hok (by simp)
      | bool a => exact absurd hok (by simp)
      | null => exact absurd hok (by simp)
      | list a => exact absurd hok (by simp)
  · rw [if_neg hd] at hok
    injection hok with h
    rw [h]

theorem applyDebug_keys (metadata : Dict) (dv : Val) (tp tpD : Dict)
    (hok : applyDebug metadata dv tp = .ok tpD) (s : String)
    (h : dget tpD s ≠ none) :
    dget tp s ≠ none ∨ (s = "metadata" ∧ debugOn dv = true) := by
  by_cases hs : s = "metadata"
  · by_cases hd : debugOn dv = true
    · exact .inr ⟨hs, hd⟩
    · left
      unfold applyDebug at hok
      rw [if_neg hd] at hok
      injection hok with hh
      rw [hh]
      exact h
  · left
    rw [← applyDebug_dget_ne metadata dv tp tpD hok s hs]
    exact h

theorem applyDebug_off (metadata : Dict) (dv : Val) (tp : Dict)
    (hd : debugOn dv = false) : applyDebug metadata dv tp = .ok tp := by
  unfold applyDebug
  rw [if_neg (by simp [hd])]

theorem applyTagsBlock_snd_dget_ne (ctx : LangfuseCtx) (inp : V2Input) (r : PopsResult)
    (tags : List String) (clean tp : Dict) (s : String) (hs : s ≠ "tags") :
    dget (applyTagsBlock ctx inp r tags clean tp).2 s = dget tp s := by
  unfold applyTagsBlock
  by_cases hst : supports_tags ctx.sdkVersion = true
  · rw [if_pos hst]
    dsimp only
    by_cases he : r.existing_trace_id.isNull = true
    · rw [if_pos he, dget_dinsert_ne _ _ _ _ hs]
    · rw [if_neg he]
  · rw [if_neg hst]

theorem applyTagsBlock_snd_patch (ctx : LangfuseCtx) (inp : V2Input) (r : PopsResult)
    (tags : List String) (clean tp : Dict) (he : r.existing_trace_id.isNull = false) :
    (applyTagsBlock ctx inp r tags clean tp).2 = tp := by
  unfold applyTagsBlock
  by_cases hst : supports_tags ctx.sdkVersion = true
  · rw [if_pos hst]
    dsimp only
    rw [if_neg (by simp [he])]
  · rw [if_neg hst]

theorem applyTagsBlock_fst_keys (ctx : LangfuseCtx) (inp : V2Input) (r : PopsResult)
    (tags : List String) (clean tp : Dict) (s : String)
    (h : dget (applyTagsBlock ctx inp r tags clean tp).1 s ≠ none) :
    dget clean s ≠ none ∨ s = "cache_hit" := by
  by_cases hs : s = "cache_hit"
  · exact .inr hs
  · left
    unfold applyTagsBlock at h
    by_cases hst : supports_tags ctx.sdkVersion = true
    · rw [if_pos hst] at h
      dsimp only at h
      rcases hch : dget inp.kwargs "cache_hit" with _ | v
      · rw [hch] at h; exact h
      · rw [hch, dget_dinsert_ne _ _ _ _ hs] at h
        exact h
    · rw [if_neg hst] at h
      exact h

theorem lateInserts_keys (inp : V2Input) (clean : Dict) (s : String)
    (h : dget (lateInserts inp clean) s ≠ none) :
    dget clean s ≠ none ∨
      s ∈ ["litellm_response_cost", "hidden_params", "api_base",
           "vertex_location", "aws_region_name"] := by
  by_cases h1 : s = "litellm_response_cost"; · exact .inr (by simp [h1])
  by_cases h2 : s = "hidden_params"; · exact .inr (by simp [h2])
  by_cases h3 : s = "api_base"; · exact .inr (by simp [h3])
  by_cases h4 : s = "vertex_location"; · exact .inr (by simp [h4])
  by_cases h5 : s = "aws_region_name"; · exact .inr (by simp [h5])
  left
  unfold lateInserts at h
  dsimp only at h
  by_cases hw : truthy (dgetD inp.kwargs "aws_region_name" Val.null) = true
  · rw [if_pos hw, dget_dinsert_ne _ _ _ _ h5] at h
    by_cases hv : truthy (dgetD inp.kwargs "vertex_location" Val.null) = true
    · rw [if_pos hv, dget_dinsert_ne _ _ _ _ h4] at h
      by_cases ha : truthy (dgetD inp.litellm_params "api_base" Val.null) = true
      · rw [if_pos ha, dget_dinsert_ne _ _ _ _ h3] at h
        cases hslo : inp.slo with
        | some sl => rw [hslo] at h; rw [dget_dinsert_ne _ _ _ _ h2] at h
                     rw [dget_dinsert_ne _ _ _ _ h1] at h; exact h
        | none => rw [hslo] at h; rw [dget_dinsert_ne _ _ _ _ h1] at h; exact h
      · rw [if_neg ha] at h
        cases hslo : inp.slo with
        | some sl => rw [hslo] at h; rw [dget_dinsert_ne _ _ _ _ h2] at h
                     rw [dget_dinsert_ne _ _ _ _ h1] at h; exact h
        | none => rw [hslo] at h; rw [dget_dinsert_ne _ _ _ _ h1] at h; exact h
    · rw [if_neg hv] at h
      by_cases ha : truthy (dgetD inp.litellm_params "api_base" Val.null) = true
      · rw [if_pos ha, dget_dinsert_ne _ _ _ _ h3] at h
        cases hslo : inp.slo with
        | some sl => rw [hslo] at h; rw [dget_dinsert_ne _ _ _ _ h2] at h
                     rw [dget_dinsert_ne _ _ _ _ h1] at h; exact h
        | none => rw [hslo] at h; rw [dget_dinsert_ne _ _ _ _ h1] at h; exact h
      · rw [if_neg ha] at h
        cases hslo : inp.slo with
        | some sl => rw [hslo] at h; rw [dget_dinsert_ne _ _ _ _ h2] at h
                     rw [dget_dinsert_ne _ _ _ _ h1] at h; exact h
        | none => rw [hslo] at h; rw [dget_dinsert_ne _ _ _ _ h1] at h; exact h
  · rw [if_neg hw] at h
    by_cases hv : truthy (dgetD inp.kwargs "vertex_location" Val.null) = true
    · rw [if_pos hv, dget_dinsert_ne _ _ _ _ h4] at h
      by_cases ha : truthy (dgetD inp.litellm_params "api_base" Val.null) = true
      · rw [if_pos ha, dget_dinsert_ne _ _ _ _ h3] at h
        cases hslo : inp.slo with
        | some sl => rw [hslo] at h; rw [dget_dinsert_ne _ _ _ _ h2] at h
                     rw [dget_dinsert_ne _ _ _ _ h1] at h; exact h
        | none => rw [hslo] at h; rw [dget_dinsert_ne _ _ _ _ h1] at h; exact h
      · rw [if_neg ha] at h
        cases hslo : inp.slo with
        | some sl => rw [hslo] at h; rw [dget_dinsert_ne _ _ _ _ h2] at h
                     rw [dget_dinsert_ne _ _ _ _ h1] at h; exact h
        | none => rw [hslo] at h; rw [dget_dinsert_ne _ _ _ _ h1] at h; exact h
    · rw [if_neg hv] at h
      by_cases ha : truthy (dgetD inp.litellm_params "api_base" Val.null) = true
      · rw [if_pos ha, dget_dinsert_ne _ _ _ _ h3] at h
        cases hslo : inp.slo with
        | some sl => rw [hslo] at h; rw [dget_dinsert_ne _ _ _ _ h2] at h
                     rw [dget_dinsert_ne _ _ _ _ h1] at h; exact h
        | none => rw [hslo] at h; rw [dget_dinsert_ne _ _ _ _ h1] at h; exact h
      · rw [if_neg ha] at h
        cases hslo : inp.slo with
        | some sl => rw [hslo] at h; rw [dget_dinsert_ne _ _ _ _ h2] at h
                     rw [dget_dinsert_ne _ _ _ _ h1] at h; exact h
        | none => rw [hslo] at h; rw [dget_dinsert_ne _ _ _ _ h1] at h; exact h

theorem buildStageA_ok_cases (ctx : LangfuseCtx) (inp : V2Input) (b : V2Build)
    (r : PopsResult) (hr : popControlKeys ctx inp = r)
    (hok : buildStageA ctx inp = .ok b) :
    b.maskInput = r.mask_input ∧ b.maskOutput = r.mask_output ∧
    b.existingTraceId = r.existing_trace_id ∧ b.debugVal = r.debugVal ∧
    b.pmmVal = r.pmm ∧ b.tags = proxyBaseUrlTags ctx r.tags ∧
    ∃ tpB cleanB tpD,
      ((r.existing_trace_id.isNull = true ∧ b.updateTraceKeys = [] ∧
        (tpB, cleanB) = newTraceBranch inp r) ∨
       (r.existing_trace_id.isNull = false ∧
        parseUpdateTraceKeys r.utkVal = .ok b.updateTraceKeys ∧
        (tpB, cleanB) = patchBranch inp r b.updateTraceKeys)) ∧
      applyDebug inp.metadata r.debugVal tpB = .ok tpD ∧
      b.cleanMeta = (applyTagsBlock ctx inp r (proxyBaseUrlTags ctx r.tags)
        (lateInserts inp cleanB) tpD).1 ∧
      b.traceParams = (applyTagsBlock ctx inp r (proxyBaseUrlTags ctx r.tags)
        (lateInserts inp cleanB) tpD).2 := by
  unfold buildStageA at hok
  rw [hr] at hok
  dsimp only at hok
  by_cases hnull : r.existing_trace_id.isNull = true
  · rw [if_pos hnull] at hok
    dsimp only at hok
    rcases hdbg : applyDebug inp.metadata r.debugVal (newTraceBranch inp r).1 with e | tpD
    · rw [hdbg] at hok
      exact absurd hok (by simp)
    · rw [hdbg] at hok
      dsimp only at hok
      injection hok with hb
      subst hb
      refine ⟨rfl, rfl, rfl, rfl, rfl, rfl,
        (newTraceBranch inp r).1, (newTraceBranch inp r).2, tpD,
        .inl ⟨hnull, rfl, rfl⟩, hdbg, rfl, rfl⟩
  · rw [if_neg hnull] at hok
    rcases hparse : parseUpdateTraceKeys r.utkVal with e | utkStrs
    · rw [hparse] at hok
      exact absurd hok (by simp)
    · rw [hparse] at hok
      dsimp only at hok
      rcases hdbg : applyDebug inp.metadata r.debugVal (patchBranch inp r utkStrs).1
        with e | tpD
      · rw [hdbg] at hok
        exact absurd hok (by simp)
      · rw [hdbg] at hok
        dsimp only at hok
        injection hok with hb
        subst hb
        refine ⟨rfl, rfl, rfl, rfl, rfl, rfl,
          (patchBranch inp r utkStrs).1, (patchBranch inp r utkStrs).2, tpD,
          .inr ⟨by simpa using hnull, rfl, rfl⟩, hdbg, rfl, rfl⟩

theorem add_prompt_dget_ne (ctx : LangfuseCtx) (gp cl : Dict) (pmm : Val)
    (gp' cl' : Dict) (hok : add_prompt_to_generation_params ctx gp cl pmm = .ok (gp', cl'))
    (s : String) (hs : s ≠ "prompt") : dget gp' s = dget gp s := by
  unfold add_prompt_to_generation_params at hok
  dsimp only at hok
  repeat' split at hok
  all_goals injection hok
  all_goals
    (rename_i h
     rw [Prod.mk.injEq] at h
     obtain ⟨h1, h2⟩ := h
     subst h1
     first
     | rfl
     | rw [dget_dinsert_ne _ _ _ _ hs])


theorem genTail_dget_ne (ctx : LangfuseCtx) (inp : V2Input) (gp2 : Dict) (s : String)
    (h1 : s ≠ "status_message") (h2 : s ≠ "completion_start_time") :
    dget (genTail ctx inp gp2) s = dget gp2 s := by
  unfold genTail
  dsimp only
  by_cases hc : supports_completion_start_time ctx.sdkVersion = true
  · rw [if_pos hc, dget_dinsert_ne _ _ _ _ h2]
    by_cases hl : (isStrOutput inp.output && (inp.level == "ERROR")) = true
    · rw [if_pos hl, dget_dinsert_ne _ _ _ _ h1]
    · rw [if_neg hl]
  · rw [if_neg hc]
    by_cases hl : (isStrOutput inp.output && (inp.level == "ERROR")) = true
    · rw [if_pos hl, dget_dinsert_ne _ _ _ _ h1]
    · rw [if_neg hl]

theorem genTail_status (ctx : LangfuseCtx) (inp : V2Input) (gp2 : Dict) (s : String)
    (ho : inp.output = some (.str s)) (hl : inp.level = "ERROR") :
    dget (genTail ctx inp gp2) "status_message" = some (.str s) := by
  unfold genTail
  dsimp only
  have hl' : (isStrOutput inp.output && (inp.level == "ERROR")) = true := by
    rw [ho, hl]
    rfl
  have hstr : theStr inp.output = s := by rw [ho]; rfl
  by_cases hc : supports_completion_start_time ctx.sdkVersion = true
  · rw [if_pos hc, dget_dinsert_ne _ _ _ _ (by simp), if_pos hl', hstr, dget_dinsert_self]
  · rw [if_neg hc, if_pos hl', hstr, dget_dinsert_self]

theorem buildGenerationCore_gp1_dget (ctx : LangfuseCtx) (inp : V2Input) (b : V2Build)
    (model : Val) :
    dget (buildGenerationCore ctx inp b model).gp1 "input" =
      some (if b.maskInput then redactedMarker else ov inp.input) ∧
    dget (buildGenerationCore ctx inp b model).gp1 "output" =
      some (if b.maskOutput then redactedMarker else ov inp.output) ∧
    dget (buildGenerationCore ctx inp b model).gp1 "status_message" = none := by
  unfold buildGenerationCore
  dsimp only
  by_cases hpo : (dgetD inp.metadata "parent_observation_id" Val.null).isNull = true
  · rw [if_pos hpo]
    exact ⟨rfl, rfl, rfl⟩
  · rw [if_neg hpo]
    refine ⟨?_, ?_, ?_⟩ <;> rw [dget_dinsert_ne _ _ _ _ (by simp)] <;> rfl

theorem buildGenerationParams_fields (ctx : LangfuseCtx) (inp : V2Input) (b : V2Build)
    (gp : Dict) (gid : Option String)
    (hok : buildGenerationParams ctx inp b = .ok (gp, gid)) :
    dget gp "input" = some (if b.maskInput then redactedMarker else ov inp.input) ∧
    dget gp "output" = some (if b.maskOutput then redactedMarker else ov inp.output) ∧
    (∀ s, inp.output = some (.str s) → inp.level = "ERROR" →
      dget gp "status_message" = some (.str s)) := by
  unfold buildGenerationParams at hok
  rcases hm : dget inp.kwargs "model" with _ | model
  · rw [hm] at hok
    exact absurd hok (by simp)
  · rw [hm] at hok
    dsimp only at hok
    obtain ⟨hin, hout, _⟩ := buildGenerationCore_gp1_dget ctx inp b model
    by_cases hsp : supports_prompt ctx.sdkVersion = true
    · rw [if_pos hsp] at hok
      rcases hap : add_prompt_to_generation_params ctx
          (buildGenerationCore ctx inp b model).gp1
          (buildGenerationCore ctx inp b model).clean3 b.pmmVal with e | pr
      · rw [hap] at hok
        exact absurd hok (by simp)
      · obtain ⟨gp2, c4⟩ := pr
        rw [hap] at hok
        dsimp only at hok
        injection hok with h
        rw [Prod.mk.injEq] at h
        obtain ⟨h1, h2⟩ := h
        subst h1
        have hgin := add_prompt_dget_ne _ _ _ _ _ _ hap "input" (by simp)
        have hgout := add_prompt_dget_ne _ _ _ _ _ _ hap "output" (by simp)
        refine ⟨?_, ?_, ?_⟩
        · rw [genTail_dget_ne _ _ _ _ (by simp) (by simp), hgin, hin]
        · rw [genTail_dget_ne _ _ _ _ (by simp) (by simp), hgout, hout]
        · intro t hto hlv
          exact genTail_status ctx inp gp2 t hto hlv
    · rw [if_neg hsp] at hok
      dsimp only at hok
      injection hok with h
      rw [Prod.mk.injEq] at h
      obtain ⟨h1, h2⟩ := h
      subst h1
      refine ⟨?_, ?_, ?_⟩
      · rw [genTail_dget_ne _ _ _ _ (by simp) (by simp), hin]
      · rw [genTail_dget_ne _ _ _ _ (by simp) (by simp), hout]
      · intro t hto hlv
        exact genTail_status ctx inp _ t hto hlv

theorem log_langfuse_v2_trace_fail (ctx : LangfuseCtx) (be : Backend) (inp : V2Input)
    (h : ∀ d, ∃ e, be.createTrace d = .error e) :
    log_langfuse_v2 ctx be inp = (none, none) := by
  unfold log_langfuse_v2
  rcases hb : buildStageA ctx inp with e | b
  · rfl
  · dsimp only
    obtain ⟨e, he⟩ := h b.traceParams
    rw [he]

theorem log_langfuse_v2_gen_fail (ctx : LangfuseCtx) (be : Backend) (inp : V2Input)
    (h : ∀ d, ∃ e, be.createGeneration d = .error e) :
    log_langfuse_v2 ctx be inp = (none, none) := by
  unfold log_langfuse_v2
  rcases hb : buildStageA ctx inp with e | b
  · rfl
  · dsimp only
    rcases ht : be.createTrace b.traceParams with e1 | u
    · rfl
    · dsimp only
      rcases hs : runSpans be b.spans with e2 | u2
      · rfl
      · dsimp only
        rcases hg : buildGenerationParams ctx inp b with e3 | pr
        · rfl
        · obtain ⟨gp, gid⟩ := pr
          dsimp only
          obtain ⟨e4, he4⟩ := h gp
          rw [he4]

theorem log_langfuse_v2_span_fail (ctx : LangfuseCtx) (be : Backend) (inp : V2Input)
    (b : V2Build) (hb : buildStageA ctx inp = .ok b) (hne : b.spans ≠ [])
    (h : ∀ d, ∃ e, be.createSpan d = .error e) :
    log_langfuse_v2 ctx be inp = (none, none) := by
  unfold log_langfuse_v2
  rw [hb]
  dsimp only
  rcases ht : be.createTrace b.traceParams with e1 | u
  · rfl
  · dsimp only
    rcases hsp : b.spans with _ | ⟨sp, rest⟩
    · exact absurd hsp hne
    · obtain ⟨e, he⟩ := h sp
      unfold runSpans
      rw [he]

theorem log_langfuse_v1_trace_fail (be : Backend) (user_id : Option Val) (metadata : Dict)
    (output : Option Val) (st et : Val) (kwargs optional_params : Dict)
    (input : Option Val) (resp : ResponseObj)
    (h : ∀ d, ∃ e, be.createTrace d = .error e) :
    ∃ e, log_langfuse_v1 be user_id metadata output st et kwargs optional_params
      input resp = .error e := by
  unfold log_langfuse_v1
  obtain ⟨e, he⟩ := h _
  rw [he]
  exact ⟨e, rfl⟩

theorem log_langfuse_v1_gen_fail (be : Backend) (user_id : Option Val) (metadata : Dict)
    (output : Option Val) (st et : Val) (kwargs optional_params : Dict)
    (input : Option Val) (resp : ResponseObj)
    (h : ∀ d, ∃ e, be.createGeneration d = .error e) :
    ∃ e, log_langfuse_v1 be user_id metadata output st et kwargs optional_params
      input resp = .error e := by
  unfold log_langfuse_v1
  rcases ht : be.createTrace _ with e1 | u
  · exact ⟨e1, rfl⟩
  · dsimp only
    rcases hu : resp_usage resp with _ | usage
    · exact ⟨_, rfl⟩
    · dsimp only
      rcases hpt : usage.prompt_tokens with _ | pt
      · exact ⟨_, rfl⟩
      · dsimp only
        rcases hct : usage.completion_tokens with _ | ct
        · exact ⟨_, rfl⟩
        · dsimp only
          rcases hmm : dget kwargs "model" with _ | model
          · exact ⟨_, rfl⟩
          · dsimp only
            obtain ⟨e, he⟩ := h _
            rw [he]
            exact ⟨e, rfl⟩

/-! ## Claim theorems -/

/-- C2 (counterexample): the claim asserts a client at SDK version 2.5.0
"uses the v1 legacy path", i.e. that `_is_langfuse_v2` is false there.  But
`2.5.0 >= 2.0.0`, so `_is_langfuse_v2` returns true and the v2 protocol is
used (the spec's own threshold sentence agrees). -/
theorem c2_version_2_5_0_is_v2 :
    supports_tags (2, 5, 0) = false ∧ is_langfuse_v2 (2, 5, 0) = true := by
  decide

/-- C2 (amended): capability gating is a pure threshold comparison on the
SDK version: 2.5.0 reports no tag support yet still uses the v2 protocol
(since 2.5.0 ≥ 2.0.0); 2.6.3 supports tags; 2.7.3 reports all four
capabilities (tags, prompt, cost, completion start time). -/
theorem c2_capability_gating :
    supports_tags (2, 5, 0) = false ∧ is_langfuse_v2 (2, 5, 0) = true ∧
    supports_tags (2, 6, 3) = true ∧ is_langfuse_v2 (2, 6, 3) = true ∧
    supports_tags (2, 7, 3) = true ∧ supports_prompt (2, 7, 3) = true ∧
    supports_costs (2, 7, 3) = true ∧ supports_completion_start_time (2, 7, 3) = true := by
  decide

theorem runCreations_le (maxClients k : Nat) : runCreations maxClients k ≤ maxClients := by
  induction k with
  | zero => exact Nat.zero_le _
  | succ k ih =>
    unfold runCreations safe_init_langfuse_client
    by_cases h : runCreations maxClients k ≥ maxClients
    · simp [h]
      omega
    · simp [h]
      omega

theorem runCreations_eq_of_le (maxClients k : Nat) (h : k ≤ maxClients) :
    runCreations maxClients k = k := by
  induction k with
  | zero => rfl
  | succ k ih =>
    have hk : k ≤ maxClients := Nat.le_of_succ_le h
    have hlt : k < maxClients := h
    unfold runCreations safe_init_langfuse_client
    rw [ih hk]
    simp [Nat.not_le.mpr hlt]

/-- C4: creation fails exactly at the configured ceiling: every creation
below `maxClients` succeeds and increments the counter by one, the creation
attempted at the ceiling fails and leaves the counter unchanged (so starting
from zero, the first `maxClients` attempts succeed and the next one fails),
and the counter never exceeds `maxClients`. -/
theorem c4_client_cap (maxClients k : Nat) :
    (k < maxClients → safe_init_langfuse_client k maxClients = .ok (k + 1)) ∧
    (∃ msg, safe_init_langfuse_client maxClients maxClients = .error msg) ∧
    (k ≤ maxClients → runCreations maxClients k = k) ∧
    runCreations maxClients k ≤ maxClients ∧
    runCreations maxClients (maxClients + 1) = maxClients := by
  refine ⟨?_, ?_, ?_, runCreations_le _ _, ?_⟩
  · intro h
    unfold safe_init_langfuse_client
    simp [Nat.not_le.mpr h]
  · exact ⟨"Max langfuse clients reached", by unfold safe_init_langfuse_client; simp⟩
  · exact runCreations_eq_of_le _ _
  · unfold runCreations safe_init_langfuse_client
    rw [runCreations_eq_of_le _ _ (Nat.le_refl _)]
    simp

/-- C4 (witness): with a ceiling of 2, the first creation from 0 succeeds,
two creations reach the ceiling, and the third attempt leaves the counter
at 2. -/
theorem c4_client_cap_witness :
    safe_init_langfuse_client 0 2 = .ok 1 ∧ runCreations 2 2 = 2 ∧
    runCreations 2 3 = 2 := by
  refine ⟨(c4_client_cap 2 0).1 (by decide), (c4_client_cap 2 2).2.2.1 (by decide), ?_⟩
  exact (c4_client_cap 2 0).2.2.2.2

/-- C3: the input/output extraction implemented by
`_get_langfuse_input_output_content` agrees, on every call type, raw input,
response variant, prompt, level and status message, with the §4.2 extraction
table (checked in order, first match wins; unmatched call types yield
`(None, None)`). -/
theorem c3_extraction_matches_table (callType rawInput : Option Val) (resp : ResponseObj)
    (prompt : Dict) (level : String) (status_message : Option String) :
    get_langfuse_input_output_content callType rawInput resp prompt level status_message =
      spec_extraction_table callType rawInput resp prompt level status_message := by
  unfold get_langfuse_input_output_content spec_extraction_table
  by_cases h1 : (level == "ERROR" && status_message.isSome) = true
  · rw [if_pos h1, if_pos h1]
  · rw [if_neg h1, if_neg h1]
    cases resp <;>
      simp [get_chat_content_for_langfuse, get_text_completion_content_for_langfuse]

/-- C9: the header merge copies every `langfuse_`-prefixed proxy-request
header into the metadata under its stripped name (overwriting any existing
entry), leaves every other metadata key untouched, changes nothing when no
header carries the prefix, and changes nothing when `litellm_params` or its
proxy request is missing. -/
theorem c9_header_merge :
    (∀ m : Option Dict, add_metadata_from_header none m = m) ∧
    (∀ (lp : Dict) (m : Option Dict), dget lp "proxy_server_request" = none →
      add_metadata_from_header (some lp) m = m) ∧
    (∀ (lp m psrD hdrs : Dict),
      dget lp "proxy_server_request" = some (.dict psrD) →
      dget psrD "headers" = some (.dict hdrs) →
      add_metadata_from_header (some lp) (some m) = some (hdrs.foldl headerStep m) ∧
      ((hdrs.map (fun p => p.1)).Nodup →
        ∀ k v, (k, v) ∈ hdrs → pyStartsWith k "langfuse_" = true →
          dget (hdrs.foldl headerStep m) (stripLangfuse k) = some v) ∧
      (∀ s, (∀ p ∈ hdrs, ¬(pyStartsWith p.1 "langfuse_" = true ∧ stripLangfuse p.1 = s)) →
        dget (hdrs.foldl headerStep m) s = dget m s) ∧
      ((∀ p ∈ hdrs, pyStartsWith p.1 "langfuse_" = false) →
        hdrs.foldl headerStep m = m)) := by
  refine ⟨fun m => rfl, ?_, ?_⟩
  · intro lp m hpsr
    unfold add_metadata_from_header
    dsimp only
    rw [hpsr]
  · intro lp m psrD hdrs hpsr hh
    refine ⟨?_, ?_, ?_, ?_⟩
    · unfold add_metadata_from_header
      dsimp only
      rw [hpsr]
      dsimp only
      rw [hh]
      rfl
    · intro hnodup k v hmem hpre
      exact headerFold_dget_set hdrs m k v hmem hpre hnodup
    · intro s hno
      exact headerFold_dget_untouched hdrs m s hno
    · intro hno
      exact headerFold_id hdrs m hno

/-- C9 (witness): a request with headers
`{langfuse_trace_id: tid-9, accept: json}` merged into metadata
`{trace_id: old}` overwrites `trace_id` with `tid-9` and leaves other keys
alone; with no proxy request the metadata is returned unchanged. -/
theorem c9_header_merge_witness :
    dget ((([("langfuse_trace_id", Val.str "tid-9"), ("accept", Val.str "json")] : Dict).foldl
      headerStep mdHdr)) (stripLangfuse "langfuse_trace_id") = some (.str "tid-9") ∧
    add_metadata_from_header (some lpHdr) (some mdHdr) =
      some (([("langfuse_trace_id", Val.str "tid-9"), ("accept", Val.str "json")] : Dict).foldl
        headerStep mdHdr) ∧
    add_metadata_from_header none (some mdHdr) = some mdHdr := by
  have h := (c9_header_merge.2.2 lpHdr mdHdr
    [("headers", .dict [("langfuse_trace_id", .str "tid-9"), ("accept", .str "json")])]
    [("langfuse_trace_id", .str "tid-9"), ("accept", .str "json")] rfl rfl)
  refine ⟨?_, h.1, c9_header_merge.1 (some mdHdr)⟩
  exact h.2.1 (by simp) "langfuse_trace_id" (.str "tid-9") (by simp) rfl

/-- C1: the top-level logging operation always returns a pair of nullable
identifiers — the model is total, every Python exception path being an
`Except.error` consumed by the outer handler — and whenever the backend
fails, the failure is caught and the result is `(None, None)`: if every
trace creation fails the whole call returns `(None, None)`; likewise if
every generation creation fails; and on the v2 path, if a span is emitted
and every span creation fails, the v2 submission returns `(None, None)`. -/
theorem c1_log_event_swallows_backend_failures (ctx : LangfuseCtx) (be : Backend)
    (kwargs : Dict) (slo : Option SLOModel) (resp : ResponseObj) (st et : Val)
    (uid : Option Val) (level : String) (sm : Option String) :
    (∃ t g, log_event_on_langfuse ctx be kwargs slo resp st et uid level sm = (t, g)) ∧
    ((∀ d, ∃ e, be.createTrace d = .error e) →
      log_event_on_langfuse ctx be kwargs slo resp st et uid level sm = (none, none)) ∧
    ((∀ d, ∃ e, be.createGeneration d = .error e) →
      log_event_on_langfuse ctx be kwargs slo resp st et uid level sm = (none, none)) ∧
    (∀ (inp : V2Input) (b : V2Build), buildStageA ctx inp = .ok b → b.spans ≠ [] →
      (∀ d, ∃ e, be.createSpan d = .error e) →
      log_langfuse_v2 ctx be inp = (none, none)) := by
  refine ⟨⟨_, _, rfl⟩, ?_, ?_, ?_⟩
  · intro hT
    unfold log_event_on_langfuse
    dsimp only
    split
    case h_2 => rfl
    case h_1 r heq =>
      repeat' split at heq
      all_goals first
      | exact Except.noConfusion heq
      | (injection heq with h; rw [← h]; exact log_langfuse_v2_trace_fail ctx be _ hT)
      | (injection heq with h; exact h.symm)
  · intro hG
    unfold log_event_on_langfuse
    dsimp only
    split
    case h_2 => rfl
    case h_1 r heq =>
      repeat' split at heq
      all_goals first
      | exact Except.noConfusion heq
      | (injection heq with h; rw [← h]; exact log_langfuse_v2_gen_fail ctx be _ hG)
      | (injection heq with h; exact h.symm)
  · intro inp b hb hne hS
    exact log_langfuse_v2_span_fail ctx be inp b hb hne hS

/-- C1 (witness): with a backend whose trace creation always fails, and one
whose generation creation always fails, the logging call returns
`(None, None)`; with a span-emitting build (guardrail information present)
and failing span creation, the v2 path returns `(None, None)`. -/
theorem c1_witness :
    log_event_on_langfuse ctxStd beFailTrace [("model", Val.str "gpt-test")] none
      .nullResp .null .null none "DEFAULT" none = (none, none) ∧
    log_event_on_langfuse ctxStd beFailGen [("model", Val.str "gpt-test")] none
      .nullResp .null .null none "DEFAULT" none = (none, none) ∧
    log_langfuse_v2 ctxStd beFailSpan inpGuard = (none, none) := by
  refine ⟨?_, ?_, ?_⟩
  · exact (c1_log_event_swallows_backend_failures ctxStd beFailTrace
      [("model", Val.str "gpt-test")] none .nullResp .null .null none "DEFAULT" none).2.1
      (fun d => ⟨"trace down", rfl⟩)
  · exact (c1_log_event_swallows_backend_failures ctxStd beFailGen
      [("model", Val.str "gpt-test")] none .nullResp .null .null none "DEFAULT" none).2.2.1
      (fun d => ⟨"generation down", rfl⟩)
  · refine (c1_log_event_swallows_backend_failures ctxStd beFailSpan
      [("model", Val.str "gpt-test")] none .nullResp .null .null none "DEFAULT" none).2.2.2
      inpGuard (stageAOf ctxStd inpGuard) rfl ?_ (fun d => ⟨"span down", rfl⟩)
    rw [show (stageAOf ctxStd inpGuard).spans =
      [[("name", Val.str "guardrail"), ("input", Val.null), ("output", Val.null),
        ("metadata", Val.dict [("guardrail_name", Val.null), ("guardrail_mode", Val.null),
          ("guardrail_masked_entity_count", Val.null)]),
        ("start_time", Val.null), ("end_time", Val.null)]] from rfl]
    exact List.cons_ne_nil _ _

theorem newTraceBranch_output_nonerror (inp : V2Input) (r : PopsResult)
    (hlev : inp.level ≠ "ERROR") :
    dget (newTraceBranch inp r).1 "output" =
      some (if r.mask_output then redactedMarker else ov inp.output) := by
  unfold newTraceBranch
  dsimp only
  rw [if_neg (by simp [hlev]), dget_dinsert_self]

theorem newTraceBranch_status_error (inp : V2Input) (r : PopsResult)
    (hlev : inp.level = "ERROR") :
    dget (newTraceBranch inp r).1 "status_message" = some (ov inp.output) := by
  unfold newTraceBranch
  dsimp only
  rw [if_pos (by simp [hlev]), dget_dinsert_self]

/-- C5 (amended): masking forces the redaction marker wherever the builder
itself writes the input/output — with the one exception the counterexample
forces: on a new trace, a surviving metadata key that starts with `trace_`
and strips to `input` is lifted onto the trace afterwards and overwrites the
masked input.  Precisely: with `maskInput` on, the new-trace `input` equals
the marker provided no metadata key strips to `input`; the new-trace
`output` (on a non-error level) always equals the marker with `maskOutput`
on; a patch with `input`/`output` in `updateTraceKeys` always carries the
marker; and the GenerationSpec input/output always equal the marker. -/
theorem c5_masking_amended (ctx : LangfuseCtx) (inp : V2Input) (b : V2Build)
    (hok : buildStageA ctx inp = .ok b) (hred : RedactKeepsKeys ctx.redact) :
    (b.maskInput = true → b.existingTraceId = Val.null →
      (∀ k ∈ inp.metadata.map (fun p => p.1),
        ¬(pyStartsWith k "trace_" = true ∧ stripTrace k = "input")) →
      dget b.traceParams "input" = some redactedMarker) ∧
    (b.maskOutput = true → b.existingTraceId = Val.null → inp.level ≠ "ERROR" →
      dget b.traceParams "output" = some redactedMarker) ∧
    (b.maskInput = true → b.existingTraceId.isNull = false →
      b.updateTraceKeys.contains "input" = true →
      dget b.traceParams "input" = some redactedMarker) ∧
    (b.maskOutput = true → b.existingTraceId.isNull = false →
      b.updateTraceKeys.contains "output" = true →
      dget b.traceParams "output" = some redactedMarker) ∧
    (∀ gp gid, buildGenerationParams ctx inp b = .ok (gp, gid) →
      (b.maskInput = true → dget gp "input" = some redactedMarker) ∧
      (b.maskOutput = true → dget gp "output" = some redactedMarker)) := by
  obtain ⟨hmi, hmo, hex, hdv, hpv, htg, tpB, cleanB, tpD, hbranch, hdbg, hcm, htp⟩ :=
    buildStageA_ok_cases ctx inp b (popControlKeys ctx inp) rfl hok
  refine ⟨?_, ?_, ?_, ?_, ?_⟩
  · intro hmask hnew hm
    rcases hbranch with ⟨_, _, hpair⟩ | ⟨hfalse, _, _⟩
    swap
    · rw [← hex, hnew] at hfalse
      exact absurd hfalse (by simp [Val.isNull])
    · have hmaskr : (popControlKeys ctx inp).mask_input = true := by rw [← hmi, hmask]
      have htpB : tpB = (newTraceBranch inp (popControlKeys ctx inp)).1 := by
        rw [← hpair]
      rw [htp, applyTagsBlock_snd_dget_ne _ _ _ _ _ _ _ (by simp),
          applyDebug_dget_ne _ _ _ _ hdbg _ (by simp), htpB,
          newTraceBranch_fst_dget_untouched inp _ "input" ?hno (by simp) (by simp)]
      · simp [dget_cons, hmaskr]
      case hno =>
        intro k hk hsome
        rcases popControlKeys_clean_keys_subset ctx inp hred k hsome with hpk | hpk
        · rw [hpk] at hk
          exact absurd hk (by decide)
        · intro hstrip
          exact hm k hpk ⟨hk, hstrip⟩
  · intro hmask hnew hlev
    rcases hbranch with ⟨_, _, hpair⟩ | ⟨hfalse, _, _⟩
    swap
    · rw [← hex, hnew] at hfalse
      exact absurd hfalse (by simp [Val.isNull])
    · have hmaskr : (popControlKeys ctx inp).mask_output = true := by rw [← hmo, hmask]
      have htpB : tpB = (newTraceBranch inp (popControlKeys ctx inp)).1 := by
        rw [← hpair]
      rw [htp, applyTagsBlock_snd_dget_ne _ _ _ _ _ _ _ (by simp),
          applyDebug_dget_ne _ _ _ _ hdbg _ (by simp), htpB,
          newTraceBranch_output_nonerror inp _ hlev, hmaskr, if_pos rfl]
  · intro hmask hpatch hin
    rw [hex] at hpatch
    rcases hbranch with ⟨htrue, _, _⟩ | ⟨_, _, hpair⟩
    · rw [htrue] at hpatch
      exact absurd hpatch (by simp)
    · have hmaskr : (popControlKeys ctx inp).mask_input = true := by rw [← hmi, hmask]
      have htpB : tpB = (patchBranch inp (popControlKeys ctx inp) b.updateTraceKeys).1 := by
        rw [← hpair]
      rw [htp, applyTagsBlock_snd_patch _ _ _ _ _ _ hpatch,
          applyDebug_dget_ne _ _ _ _ hdbg _ (by simp), htpB,
          patchBranch_input inp _ b.updateTraceKeys hin, hmaskr, if_pos rfl]
  · intro hmask hpatch hout
    rw [hex] at hpatch
    rcases hbranch with ⟨htrue, _, _⟩ | ⟨_, _, hpair⟩
    · rw [htrue] at hpatch
      exact absurd hpatch (by simp)
    · have hmaskr : (popControlKeys ctx inp).mask_output = true := by rw [← hmo, hmask]
      have htpB : tpB = (patchBranch inp (popControlKeys ctx inp) b.updateTraceKeys).1 := by
        rw [← hpair]
      rw [htp, applyTagsBlock_snd_patch _ _ _ _ _ _ hpatch,
          applyDebug_dget_ne _ _ _ _ hdbg _ (by simp), htpB,
          patchBranch_output inp _ b.updateTraceKeys hout, hmaskr, if_pos rfl]
  · intro gp gid hgen
    obtain ⟨hgi, hgo, _⟩ := buildGenerationParams_fields ctx inp b gp gid hgen
    constructor
    · intro hmask
      rw [hgi, hmask, if_pos rfl]
    · intro hmask
      rw [hgo, hmask, if_pos rfl]

/-- C5 (counterexample): on a call with `maskInput=true` whose metadata also
carries a `trace_input` key, the new-trace lifting loop overwrites the
masked trace input with the metadata value, so the submitted TraceSpec input
is `"secret"`, not the redaction marker — refuting the claim as stated. -/
theorem c5_masking_counterexample :
    (stageAOf ctxStd inpMaskClash).maskInput = true ∧
    (stageAOf ctxStd inpMaskClash).existingTraceId = Val.null ∧
    dget (stageAOf ctxStd inpMaskClash).traceParams "input" = some (.str "secret") ∧
    Val.str "secret" ≠ redactedMarker := by
  refine ⟨rfl, rfl, rfl, by simp [redactedMarker]⟩

/-- C5 (witness): on a masked call without colliding `trace_` keys the
trace input/output, the patch input/output, and the generation input/output
all equal the redaction marker. -/
theorem c5_masking_witness :
    dget (stageAOf ctxStd inpMask).traceParams "input" = some redactedMarker ∧
    dget (stageAOf ctxStd inpMask).traceParams "output" = some redactedMarker ∧
    dget (stageAOf ctxStd inpMaskPatch).traceParams "input" = some redactedMarker ∧
    dget (stageAOf ctxStd inpMaskPatch).traceParams "output" = some redactedMarker ∧
    dget (genParamsOf ctxStd inpMask) "input" = some redactedMarker ∧
    dget (genParamsOf ctxStd inpMask) "output" = some redactedMarker := by
  have h1 := c5_masking_amended ctxStd inpMask (stageAOf ctxStd inpMask) rfl redactKeepsKeys_id
  have h2 := c5_masking_amended ctxStd inpMaskPatch (stageAOf ctxStd inpMaskPatch) rfl
    redactKeepsKeys_id
  refine ⟨h1.1 rfl rfl ?_, h1.2.1 rfl rfl (by decide), h2.2.2.1 rfl rfl rfl,
    h2.2.2.2.1 rfl rfl rfl,
    (h1.2.2.2.2 (genParamsOf ctxStd inpMask) (genIdOf ctxStd inpMask) rfl).1 rfl,
    (h1.2.2.2.2 (genParamsOf ctxStd inpMask) (genIdOf ctxStd inpMask) rfl).2 rfl⟩
  intro k hk
  fin_cases hk <;> decide

/-- C6 (amended): for a new trace built from metadata carrying no
`trace_`-prefixed key that strips to `status_message` or `output` (the
counterexample shows such keys are lifted onto the trace and break the
invariant), exactly one of `output`/`status_message` is set: with level
ERROR, `status_message` carries the extracted output and no `output` field
exists; otherwise `output` is set (masked if requested) and no
`status_message` field exists. -/
theorem c6_error_level_amended (ctx : LangfuseCtx) (inp : V2Input) (b : V2Build)
    (hok : buildStageA ctx inp = .ok b) (hred : RedactKeepsKeys ctx.redact)
    (hnew : b.existingTraceId = Val.null)
    (hm : ∀ k ∈ inp.metadata.map (fun p => p.1),
      ¬(pyStartsWith k "trace_" = true ∧
        (stripTrace k = "status_message" ∨ stripTrace k = "output"))) :
    (inp.level = "ERROR" →
      dget b.traceParams "status_message" = some (ov inp.output) ∧
      dget b.traceParams "output" = none) ∧
    (inp.level ≠ "ERROR" →
      dget b.traceParams "output" =
        some (if b.maskOutput then redactedMarker else ov inp.output) ∧
      dget b.traceParams "status_message" = none) := by
  obtain ⟨hmi, hmo, hex, hdv, hpv, htg, tpB, cleanB, tpD, hbranch, hdbg, hcm, htp⟩ :=
    buildStageA_ok_cases ctx inp b (popControlKeys ctx inp) rfl hok
  rcases hbranch with ⟨_, _, hpair⟩ | ⟨hfalse, _, _⟩
  swap
  · rw [← hex, hnew] at hfalse
    exact absurd hfalse (by simp [Val.isNull])
  have htpB : tpB = (newTraceBranch inp (popControlKeys ctx inp)).1 := by
    rw [← hpair]
  have hno : ∀ k, pyStartsWith k "trace_" = true →
      (dget (popControlKeys ctx inp).clean k).isSome →
      stripTrace k ≠ "status_message" ∧ stripTrace k ≠ "output" := by
    intro k hk hsome
    rcases popControlKeys_clean_keys_subset ctx inp hred k hsome with hpk | hpk
    · rw [hpk] at hk
      exact absurd hk (by decide)
    · exact ⟨fun hstrip => hm k hpk ⟨hk, .inl hstrip⟩,
             fun hstrip => hm k hpk ⟨hk, .inr hstrip⟩⟩
  obtain ⟨herr, hdef⟩ := newTraceBranch_error_fields inp (popControlKeys ctx inp) hno
  constructor
  · intro hlev
    obtain ⟨h1, h2⟩ := herr hlev
    constructor
    · rw [htp, applyTagsBlock_snd_dget_ne _ _ _ _ _ _ _ (by simp),
          applyDebug_dget_ne _ _ _ _ hdbg _ (by simp), htpB, h1]
    · rw [htp, applyTagsBlock_snd_dget_ne _ _ _ _ _ _ _ (by simp),
          applyDebug_dget_ne _ _ _ _ hdbg _ (by simp), htpB, h2]
  · intro hlev
    obtain ⟨h1, h2⟩ := hdef hlev
    constructor
    · rw [htp, applyTagsBlock_snd_dget_ne _ _ _ _ _ _ _ (by simp),
          applyDebug_dget_ne _ _ _ _ hdbg _ (by simp), htpB, h1, hmo]
    · rw [htp, applyTagsBlock_snd_dget_ne _ _ _ _ _ _ _ (by simp),
          applyDebug_dget_ne _ _ _ _ hdbg _ (by simp), htpB, h2]

/-- C6 (counterexample): a metadata key `trace_status_message` is lifted
onto a new trace, so with level DEFAULT the built TraceSpec carries both a
`status_message` and an `output` field — refuting "exactly one of `output`
or `statusMessage` is set". -/
theorem c6_counterexample :
    (stageAOf ctxStd inpStatusClash).existingTraceId = Val.null ∧
    dget (stageAOf ctxStd inpStatusClash).traceParams "status_message" = some (.str "x") ∧
    dget (stageAOf ctxStd inpStatusClash).traceParams "output" = some (.str "ok-output") :=
  ⟨rfl, rfl, rfl⟩

/-- C6 (witness): with level ERROR and statusMessage `"boom"` the TraceSpec
has `status_message = "boom"` and no `output`; with level DEFAULT the
TraceSpec has an `output` and no `status_message`. -/
theorem c6_witness :
    dget (stageAOf ctxStd inpError).traceParams "status_message" = some (.str "boom") ∧
    dget (stageAOf ctxStd inpError).traceParams "output" = none ∧
    dget (stageAOf ctxStd inpBase).traceParams "output" = some Val.null ∧
    dget (stageAOf ctxStd inpBase).traceParams "status_message" = none := by
  have h1 := c6_error_level_amended ctxStd inpError (stageAOf ctxStd inpError) rfl
    redactKeepsKeys_id rfl (by intro k hk; simp [inpError, inpBase] at hk)
  have h2 := c6_error_level_amended ctxStd inpBase (stageAOf ctxStd inpBase) rfl
    redactKeepsKeys_id rfl (by intro k hk; simp [inpBase] at hk)
  exact ⟨(h1.1 rfl).1, (h1.1 rfl).2, (h2.2 (by decide)).1, (h2.2 (by decide)).2⟩

/-- C7 (amended): when level is ERROR and the extracted output is a string,
the GenerationSpec gets `status_message` set to that string in addition to
the `output` field, which remains present (masked when `maskOutput` is on) —
not "instead of" it. -/
theorem c7_generation_status_amended (ctx : LangfuseCtx) (inp : V2Input) (b : V2Build)
    (gp : Dict) (gid : Option String)
    (hok : buildGenerationParams ctx inp b = .ok (gp, gid)) (s : String)
    (ho : inp.output = some (.str s)) (hl : inp.level = "ERROR") :
    dget gp "status_message" = some (.str s) ∧
    dget gp "output" = some (if b.maskOutput then redactedMarker else .str s) := by
  obtain ⟨_, hgo, hsm⟩ := buildGenerationParams_fields ctx inp b gp gid hok
  refine ⟨hsm s ho hl, ?_⟩
  rw [hgo, ho]
  rfl

/-- C7 (counterexample): on an ERROR-level call with string output
`"boom"`, the submitted GenerationSpec contains both
`status_message = "boom"` and `output = "boom"` — the `output` field is not
omitted, refuting "statusMessage set instead of output". -/
theorem c7_counterexample :
    dget (genParamsOf ctxStd inpError) "status_message" = some (.str "boom") ∧
    dget (genParamsOf ctxStd inpError) "output" = some (.str "boom") :=
  ⟨rfl, rfl⟩

/-- C7 (witness): the amended statement evaluated on the concrete ERROR
call. -/
theorem c7_witness :
    dget (genParamsOf ctxStd inpError) "status_message" = some (.str "boom") ∧
    dget (genParamsOf ctxStd inpError) "output" =
      some (if (stageAOf ctxStd inpError).maskOutput then redactedMarker
            else .str "boom") :=
  c7_generation_status_amended ctxStd inpError (stageAOf ctxStd inpError)
    (genParamsOf ctxStd inpError) (genIdOf ctxStd inpError) rfl "boom" rfl rfl

/-- C8 (amended): in patch mode every key of the trace payload is either
`id`, the debug-only `metadata` key (present only when `debug_langfuse` is
truthy — the counterexample shows it appears without being requested), or
the stripped form of a requested `update_trace_keys` entry; and the cleaned
metadata carries no `trace_`-prefixed key at all. -/
theorem c8_patch_amended (ctx : LangfuseCtx) (inp : V2Input) (b : V2Build)
    (hok : buildStageA ctx inp = .ok b) (hred : RedactKeepsKeys ctx.redact)
    (hpatch : b.existingTraceId.isNull = false) :
    (∀ s, dget b.traceParams s ≠ none →
      s = "id" ∨ (s = "metadata" ∧ debugOn b.debugVal = true) ∨
      ∃ k ∈ b.updateTraceKeys, stripTrace k = s) ∧
    (∀ k, pyStartsWith k "trace_" = true → dget b.cleanMeta k = none) := by
  obtain ⟨hmi, hmo, hex, hdv, hpv, htg, tpB, cleanB, tpD, hbranch, hdbg, hcm, htp⟩ :=
    buildStageA_ok_cases ctx inp b (popControlKeys ctx inp) rfl hok
  rw [hex] at hpatch
  rcases hbranch with ⟨htrue, _, _⟩ | ⟨_, _, hpair⟩
  · rw [htrue] at hpatch
    exact absurd hpatch (by simp)
  have htpB : tpB = (patchBranch inp (popControlKeys ctx inp) b.updateTraceKeys).1 := by
    rw [← hpair]
  have hclB : cleanB = (patchBranch inp (popControlKeys ctx inp) b.updateTraceKeys).2 := by
    rw [← hpair]
  constructor
  · intro s hs
    rw [htp, applyTagsBlock_snd_patch _ _ _ _ _ _ hpatch] at hs
    rcases applyDebug_keys _ _ _ _ hdbg s hs with h1 | h1
    · rw [htpB] at h1
      rcases patchBranch_fst_keys inp _ b.updateTraceKeys s h1 with h2 | h2
      · exact .inl h2
      · exact .inr (.inr h2)
    · exact .inr (.inl ⟨h1.1, by rw [hdv]; exact h1.2⟩)
  · intro k hk
    rcases hc : dget b.cleanMeta k with _ | v
    · rfl
    · exfalso
      have hne : dget b.cleanMeta k ≠ none := by rw [hc]; simp
      rw [hcm] at hne
      rcases applyTagsBlock_fst_keys _ _ _ _ _ _ k hne with h1 | h1
      · rcases lateInserts_keys inp cleanB k h1 with h2 | h2
        · rw [hclB] at h2
          exact h2 (patchBranch_snd_no_trace_keys inp _ b.updateTraceKeys k hk)
        · fin_cases h2 <;> exact absurd hk (by decide)
      · rw [h1] at hk
        exact absurd hk (by decide)

/-- C8 (counterexample): a patch call with `debug_langfuse` truthy and an
empty `update_trace_keys` still sends a `metadata` field on the trace —
a payload key that is neither `id` nor a stripped requested key. -/
theorem c8_counterexample :
    (stageAOf ctxStd inpDebugPatch).existingTraceId.isNull = false ∧
    (stageAOf ctxStd inpDebugPatch).updateTraceKeys = [] ∧
    (dget (stageAOf ctxStd inpDebugPatch).traceParams "metadata").isSome = true :=
  ⟨rfl, rfl, rfl⟩

/-- C8 (witness): on the concrete patch call, the cleaned metadata carries
no `trace_release` key even though the incoming metadata had one. -/
theorem c8_witness :
    dget (stageAOf ctxStd inpPatch).cleanMeta "trace_release" = none :=
  (c8_patch_amended ctxStd inpPatch (stageAOf ctxStd inpPatch) rfl
    redactKeepsKeys_id rfl).2 "trace_release" rfl

/-- C10 (amended): the eight control keys are removed from the cleaned
metadata before it is attached anywhere; but a control key named inside
`update_trace_keys` on a patch call is still lifted onto the trace payload
(the counterexample lifts `trace_version`). When every requested update key
is itself a control key (hence already popped to `None`) and debug is off,
the patch payload is exactly `[("id", existing_trace_id)]`; and requested
`input`/`output` lifts always take the masked extracted values. -/
theorem c10_consumed_controls_amended (ctx : LangfuseCtx) (inp : V2Input) (b : V2Build)
    (hok : buildStageA ctx inp = .ok b) (hred : RedactKeepsKeys ctx.redact)
    (hpatch : b.existingTraceId.isNull = false) :
    ((∀ k ∈ b.updateTraceKeys, k ∈ ["session_id", "trace_name", "trace_id",
        "existing_trace_id", "update_trace_keys", "debug_langfuse", "mask_input",
        "mask_output"]) →
      debugOn b.debugVal = false →
      b.traceParams = [("id", b.existingTraceId)]) ∧
    (b.updateTraceKeys.contains "input" = true →
      dget b.traceParams "input" =
        some (if b.maskInput then redactedMarker else ov inp.input)) ∧
    (b.updateTraceKeys.contains "output" = true →
      dget b.traceParams "output" =
        some (if b.maskOutput then redactedMarker else ov inp.output)) := by
  obtain ⟨hmi, hmo, hex, hdv, hpv, htg, tpB, cleanB, tpD, hbranch, hdbg, hcm, htp⟩ :=
    buildStageA_ok_cases ctx inp b (popControlKeys ctx inp) rfl hok
  rw [hex] at hpatch
  rcases hbranch with ⟨htrue, _, _⟩ | ⟨_, _, hpair⟩
  · rw [htrue] at hpatch
    exact absurd hpatch (by simp)
  have htpB : tpB = (patchBranch inp (popControlKeys ctx inp) b.updateTraceKeys).1 := by
    rw [← hpair]
  refine ⟨?_, ?_, ?_⟩
  · intro hcons hdbgoff
    have hall : ∀ k ∈ b.updateTraceKeys, dget (popControlKeys ctx inp).clean k = none :=
      fun k hk => popControlKeys_clean_control_none ctx inp hred k (hcons k hk)
    have hni : b.updateTraceKeys.contains "input" = false := by
      by_cases hc : b.updateTraceKeys.contains "input" = true
      · have := hcons "input" (contains_mem hc)
        simp at this
      · simpa using hc
    have hno : b.updateTraceKeys.contains "output" = false := by
      by_cases hc : b.updateTraceKeys.contains "output" = true
      · have := hcons "output" (contains_mem hc)
        simp at this
      · simpa using hc
    have hbr := patchBranch_controls inp (popControlKeys ctx inp) b.updateTraceKeys
      hall hni hno
    have htpD : tpD = tpB := by
      have hoff := applyDebug_off inp.metadata (popControlKeys ctx inp).debugVal tpB
        (by rw [← hdv]; exact hdbgoff)
      rw [hoff] at hdbg
      injection hdbg with hh
      exact hh.symm
    rw [htp, applyTagsBlock_snd_patch _ _ _ _ _ _ hpatch, htpD, htpB, hbr, hex]
  · intro hin
    rw [htp, applyTagsBlock_snd_patch _ _ _ _ _ _ hpatch,
        applyDebug_dget_ne _ _ _ _ hdbg _ (by simp), htpB,
        patchBranch_input inp _ b.updateTraceKeys hin, hmi]
  · intro hout
    rw [htp, applyTagsBlock_snd_patch _ _ _ _ _ _ hpatch,
        applyDebug_dget_ne _ _ _ _ hdbg _ (by simp), htpB,
        patchBranch_output inp _ b.updateTraceKeys hout, hmo]

/-- C10 (counterexample): `trace_version` is one of the popped control keys
only in spirit — it is not in the popped set, and naming it in
`update_trace_keys` on a patch call lifts `version = "7"` onto the trace
payload, refuting "consumed ... and not forwarded" for metadata-driven
`trace_*` controls. -/
theorem c10_counterexample :
    (stageAOf ctxStd inpCtrlClash).existingTraceId.isNull = false ∧
    (stageAOf ctxStd inpCtrlClash).updateTraceKeys = ["trace_version"] ∧
    dget (stageAOf ctxStd inpCtrlClash).traceParams "version" = some (.str "7") :=
  ⟨rfl, rfl, rfl⟩

/-- C10 (witness): a patch call whose `update_trace_keys` only names popped
control keys, with debug off, produces the bare payload
`[("id", existing_trace_id)]`. -/
theorem c10_witness :
    (stageAOf ctxStd inpCtrl).traceParams =
      [("id", (stageAOf ctxStd inpCtrl).existingTraceId)] :=
  (c10_consumed_controls_amended ctxStd inpCtrl (stageAOf ctxStd inpCtrl) rfl
    redactKeepsKeys_id rfl).1
    (by
      intro k hk
      rw [show (stageAOf ctxStd inpCtrl).updateTraceKeys =
        ["session_id", "trace_name", "mask_input"] from rfl] at hk
      fin_cases hk <;> decide) rfl
